import Mathlib

/-!
Shallow embedding of `src/cascadia/TerminalApp/GlobalAppSettings.cpp` (the
layered JSON settings object of the Terminal repository) together with the
collaborators the file uses but whose sources are not part of the repository
snapshot (GUID string utilities, the key-binding set, the runtime
`TerminalSettings` target); those are modelled from the specification and
marked as such in their doc comments.

JSON documents are association lists of string keys to values; `Json::Value`
object access `json[key]` inside an `if (auto x{...})` guard is modelled by
`jsonLookup` returning `Option JValue` (a jsoncpp null / absent key takes the
not-taken branch).  In-place mutation plus C++ exceptions is modelled by
`Except GlobalAppSettings GlobalAppSettings`: `.ok s` is a normal return with
final state `s`, `.error s` is a thrown exception with the object left in
state `s` at the throw point.
-/

set_option maxHeartbeats 1000000

/-- JSON scalar and object values (no null: a null value behaves like an
absent key for the `if (auto x{json[key]})` guards of `LayerJson`). -/
inductive JValue where
  | bool (b : Bool)
  | num (n : Int)
  | str (s : String)
  | obj (fields : List (String × JValue))

/-- A JSON object document: an association list with (in jsoncpp) unique keys. -/
abbrev JsonDoc := List (String × JValue)

/-- `json[key]` presence lookup: first entry with the given key. -/
def jsonLookup (doc : JsonDoc) (key : String) : Option JValue :=
  match doc with
  | [] => none
  | (k, v) :: rest => if k = key then some v else jsonLookup rest key

/-- Insert-or-assign on an association list (`map[key] = value` semantics:
replace the entry if the key exists, append otherwise). -/
def setKey {α : Type} : List (String × α) → String → α → List (String × α)
  | [], k, v => [(k, v)]
  | (k', v') :: rest, k, v =>
    if k' = k then (k, v) :: rest else (k', v') :: setKey rest k v

/-- Key lookup on an association list (`unordered_map::find` semantics for
the color-scheme map). -/
def lookupKey {α : Type} : List (String × α) → String → Option α
  | [], _ => none
  | (k', v) :: rest, k => if k' = k then some v else lookupKey rest k

/-- Modelled from the spec: boolean fields are "parsed directly from their
JSON scalar type; type mismatches ... treat as a parse failure if the value
is not coercible" (the jsoncpp `asBool` source is not in the snapshot). -/
def asBool : JValue → Option Bool
  | .bool b => some b
  | _ => none

/-- Modelled from the spec: integer fields are "parsed directly from their
JSON scalar type", failure on a non-coercible value (jsoncpp `asInt` source
is not in the snapshot). -/
def asInt : JValue → Option Int
  | .num n => some n
  | _ => none

/-- Modelled from the spec: `GetWstringFromJson` (TerminalApp/Utils, not in
the snapshot) extracts the string payload of a JSON string value; a
non-string value is a parse failure. -/
def getWstringFromJson : JValue → Option String
  | .str s => some s
  | _ => none

/-! ### GUID canonical string form

`Utils::GuidToString` / `Utils::GuidFromString` (types/inc/Utils.hpp) are not
in the repository snapshot.  Modelled from the spec: the "canonical
identifier form" is the standard textual representation of a 128-bit GUID,
`{XXXXXXXX-XXXX-XXXX-XXXX-XXXXXXXXXXXX}`; a malformed string is a parse
failure (the C++ helper throws).  A GUID is a natural number below `16 ^ 32`. -/

/-- The lowercase hex digit for `n % 16`. -/
def hexChar (n : Nat) : Char :=
  if n < 10 then Char.ofNat (48 + n) else Char.ofNat (87 + n)

/-- Hex digit value of a character, either case; `none` if not a hex digit. -/
def hexVal (c : Char) : Option Nat :=
  if 48 ≤ c.toNat ∧ c.toNat ≤ 57 then some (c.toNat - 48)
  else if 97 ≤ c.toNat ∧ c.toNat ≤ 102 then some (c.toNat - 87)
  else if 65 ≤ c.toNat ∧ c.toNat ≤ 70 then some (c.toNat - 55)
  else none

/-- `natToHex d n`: the `d` low hex digits of `n`, most significant first. -/
def natToHex : Nat → Nat → List Char
  | 0, _ => []
  | d + 1, n => hexChar (n / 16 ^ d % 16) :: natToHex d n

/-- Consume exactly `d` hex digits from the front of a character list,
accumulating their value onto `acc`. -/
def takeHex : Nat → Nat → List Char → Option (Nat × List Char)
  | acc, 0, cs => some (acc, cs)
  | _, _ + 1, [] => none
  | acc, d + 1, c :: cs =>
    match hexVal c with
    | some v => takeHex (acc * 16 + v) d cs
    | none => none

/-- Consume one expected literal character. -/
def expectChar (c : Char) : List Char → Option (List Char)
  | [] => none
  | c' :: cs => if c' = c then some cs else none

/-- Opening brace character (U+007B). -/
def openBrace : Char := Char.ofNat 123

/-- Closing brace character (U+007D). -/
def closeBrace : Char := Char.ofNat 125

/-- Modelled from the spec: `Utils::GuidToString`, rendering a 128-bit
identifier in its canonical 8-4-4-4-12 braced hex form. -/
def guidToString (g : Nat) : String :=
  String.mk (openBrace ::
    (natToHex 8 (g / 16 ^ 24) ++ '-' ::
      (natToHex 4 (g / 16 ^ 20 % 16 ^ 4) ++ '-' ::
        (natToHex 4 (g / 16 ^ 16 % 16 ^ 4) ++ '-' ::
          (natToHex 4 (g / 16 ^ 12 % 16 ^ 4) ++ '-' ::
            (natToHex 12 (g % 16 ^ 12) ++ [closeBrace]))))))

/-- Modelled from the spec: `Utils::GuidFromString`, parsing the canonical
braced hex form; any deviation from the exact shape is a failure (`none`,
standing for the C++ helper throwing). -/
def guidFromString (s : String) : Option Nat :=
  match expectChar openBrace s.data with
  | none => none
  | some cs =>
  match takeHex 0 8 cs with
  | none => none
  | some (a, cs) =>
  match expectChar '-' cs with
  | none => none
  | some cs =>
  match takeHex 0 4 cs with
  | none => none
  | some (b, cs) =>
  match expectChar '-' cs with
  | none => none
  | some cs =>
  match takeHex 0 4 cs with
  | none => none
  | some (c, cs) =>
  match expectChar '-' cs with
  | none => none
  | some cs =>
  match takeHex 0 4 cs with
  | none => none
  | some (d, cs) =>
  match expectChar '-' cs with
  | none => none
  | some cs =>
  match takeHex 0 12 cs with
  | none => none
  | some (e, cs) =>
  match expectChar closeBrace cs with
  | none => none
  | some [] => some ((((a * 16 ^ 4 + b) * 16 ^ 4 + c) * 16 ^ 4 + d) * 16 ^ 12 + e)
  | some _ => none

/-! ### Collaborating types -/

/-- The XAML `ElementTheme` enumeration (`Default` is the spec's
SystemDefault). -/
inductive ElementTheme where
  | Default
  | Light
  | Dark
deriving DecidableEq

/-- Modelled from the spec: the KeyBindingSet collaborator (`AppKeyBindings`
in the source, not in the snapshot) — an owned settings sub-object exposing
`ToJson` / `LayerJson` with the same merge contract, defaulting to the empty
set. Its state is the association list of its bindings. -/
structure AppKeyBindings where
  bindings : List (String × JValue)

/-- Modelled from the spec: serialization of the key-binding set — its
bindings as a JSON object. -/
def AppKeyBindings.ToJson (kb : AppKeyBindings) : JValue :=
  .obj kb.bindings

/-- Modelled from the spec: layering a document onto the key-binding set —
keys present in the document overwrite, absent keys are untouched (the
recursive merge contract of §4.1/§9); a non-object value changes nothing. -/
def AppKeyBindings.LayerJson (kb : AppKeyBindings) (v : JValue) : AppKeyBindings :=
  match v with
  | .obj fields => ⟨fields.foldl (fun acc kv => setKey acc kv.1 kv.2) kb.bindings⟩
  | _ => kb

/-- Modelled from the spec: a color scheme carrying its own name attribute
(`GetName`) and opaque scheme data (the `ColorScheme` source is not in the
snapshot). -/
structure ColorScheme where
  name : String
  table : List Int

/-! ### GlobalAppSettings -/

/-- String constants of GlobalAppSettings.cpp. -/
def KeybindingsKey : String := "keybindings"

def DefaultProfileKey : String := "defaultProfile"

def AlwaysShowTabsKey : String := "alwaysShowTabs"

def InitialRowsKey : String := "initialRows"

def InitialColsKey : String := "initialCols"

def ShowTitleInTitlebarKey : String := "showTerminalTitleInTitlebar"

def RequestedThemeKey : String := "requestedTheme"

def ShowTabsInTitlebarKey : String := "showTabsInTitlebar"

def WordDelimitersKey : String := "wordDelimiters"

def CopyOnSelectKey : String := "copyOnSelect"

def LightThemeValue : String := "light"

def DarkThemeValue : String := "dark"

def SystemThemeValue : String := "system"

/-- Modelled from the spec: `DEFAULT_ROWS` of DefaultSettings.h (not in the
snapshot) — the platform default initial row count. -/
def DEFAULT_ROWS : Int := 30

/-- Modelled from the spec: `DEFAULT_COLS` of DefaultSettings.h (not in the
snapshot) — the platform default initial column count. -/
def DEFAULT_COLS : Int := 120

/-- Modelled from the spec: `DEFAULT_WORD_DELIMITERS` of DefaultSettings.h
(not in the snapshot) — the platform default word-delimiter set. -/
def DEFAULT_WORD_DELIMITERS : String := " ./\\()\"'-:,;<>~!@#$%^&*|+=[]?"

/-- The settings record: one field per member of the C++ class. -/
structure GlobalAppSettings where
  keybindings : AppKeyBindings
  colorSchemes : List (String × ColorScheme)
  defaultProfile : Nat
  alwaysShowTabs : Bool
  initialRows : Int
  initialCols : Int
  showTitleInTitlebar : Bool
  showTabsInTitlebar : Bool
  requestedTheme : ElementTheme
  wordDelimiters : String
  copyOnSelect : Bool

/-- The default constructor `GlobalAppSettings::GlobalAppSettings()`
(lines 33–46): fresh empty key-binding set, empty scheme map, zero GUID,
and the literal defaults of the initializer list. -/
def GlobalAppSettings.construct : GlobalAppSettings where
  keybindings := ⟨[]⟩
  colorSchemes := []
  defaultProfile := 0
  alwaysShowTabs := true
  initialRows := DEFAULT_ROWS
  initialCols := DEFAULT_COLS
  showTitleInTitlebar := true
  showTabsInTitlebar := true
  requestedTheme := ElementTheme.Default
  wordDelimiters := DEFAULT_WORD_DELIMITERS
  copyOnSelect := false

/-- `GlobalAppSettings::_ParseTheme` (lines 250–262). -/
def GlobalAppSettings._ParseTheme (themeString : String) : ElementTheme :=
  if themeString = LightThemeValue then ElementTheme.Light
  else if themeString = DarkThemeValue then ElementTheme.Dark
  else ElementTheme.Default

/-- `GlobalAppSettings::_SerializeTheme` (lines 271–282). -/
def GlobalAppSettings._SerializeTheme : ElementTheme → String
  | ElementTheme.Light => LightThemeValue
  | ElementTheme.Dark => DarkThemeValue
  | _ => SystemThemeValue

/-- `GlobalAppSettings::ToJson` (lines 160–176), in source order. -/
def GlobalAppSettings.ToJson (s : GlobalAppSettings) : JsonDoc :=
  [ (DefaultProfileKey, .str (guidToString s.defaultProfile)),
    (InitialRowsKey, .num s.initialRows),
    (InitialColsKey, .num s.initialCols),
    (AlwaysShowTabsKey, .bool s.alwaysShowTabs),
    (ShowTitleInTitlebarKey, .bool s.showTitleInTitlebar),
    (ShowTabsInTitlebarKey, .bool s.showTabsInTitlebar),
    (WordDelimitersKey, .str s.wordDelimiters),
    (CopyOnSelectKey, .bool s.copyOnSelect),
    (RequestedThemeKey, .str (GlobalAppSettings._SerializeTheme s.requestedTheme)),
    (KeybindingsKey, s.keybindings.ToJson) ]

/-- One `if (auto x{json[key]}) { field = parse(x); }` block of `LayerJson`:
absent key leaves the state; a present key parses then assigns, and a parse
failure throws before any assignment (`.error` with the state unchanged by
this block). -/
def fieldStep {β : Type} (doc : JsonDoc) (key : String)
    (parse : JValue → Option β) (set : GlobalAppSettings → β → GlobalAppSettings)
    (s : GlobalAppSettings) : Except GlobalAppSettings GlobalAppSettings :=
  match jsonLookup doc key with
  | none => Except.ok s
  | some v =>
    match parse v with
    | some b => Except.ok (set s b)
    | none => Except.error s

/-- `auto guid = Utils::GuidFromString(GetWstringFromJson(defaultProfile))`
(line 195): string extraction then GUID parse, either step can throw. -/
def parseDefaultProfile (v : JValue) : Option Nat :=
  (getWstringFromJson v).bind guidFromString

/-- `_ParseTheme(GetWstringFromJson(requestedTheme))` (line 234): string
extraction can throw, theme decode itself is total. -/
def parseRequestedTheme (v : JValue) : Option ElementTheme :=
  (getWstringFromJson v).map GlobalAppSettings._ParseTheme

/-- `_defaultProfile = guid` (line 196). -/
def setDefaultProfile (s : GlobalAppSettings) (g : Nat) : GlobalAppSettings :=
  { s with defaultProfile := g }

/-- `_alwaysShowTabs = ...` (line 201). -/
def setAlwaysShowTabs (s : GlobalAppSettings) (b : Bool) : GlobalAppSettings :=
  { s with alwaysShowTabs := b }

/-- `_initialRows = ...` (line 205). -/
def setInitialRows (s : GlobalAppSettings) (n : Int) : GlobalAppSettings :=
  { s with initialRows := n }

/-- `_initialCols = ...` (line 209). -/
def setInitialCols (s : GlobalAppSettings) (n : Int) : GlobalAppSettings :=
  { s with initialCols := n }

/-- `_showTitleInTitlebar = ...` (line 214). -/
def setShowTitleInTitlebar (s : GlobalAppSettings) (b : Bool) : GlobalAppSettings :=
  { s with showTitleInTitlebar := b }

/-- `_showTabsInTitlebar = ...` (line 219). -/
def setShowTabsInTitlebar (s : GlobalAppSettings) (b : Bool) : GlobalAppSettings :=
  { s with showTabsInTitlebar := b }

/-- `_wordDelimiters = ...` (line 224). -/
def setWordDelimiters (s : GlobalAppSettings) (w : String) : GlobalAppSettings :=
  { s with wordDelimiters := w }

/-- `_copyOnSelect = ...` (line 229). -/
def setCopyOnSelect (s : GlobalAppSettings) (b : Bool) : GlobalAppSettings :=
  { s with copyOnSelect := b }

/-- `_requestedTheme = ...` (line 234). -/
def setRequestedTheme (s : GlobalAppSettings) (t : ElementTheme) : GlobalAppSettings :=
  { s with requestedTheme := t }

/-- `_keybindings->LayerJson(keybindings)` (line 239): the owned set is
layered onto in place, never replaced. -/
def layerKeybindings (s : GlobalAppSettings) (v : JValue) : GlobalAppSettings :=
  { s with keybindings := s.keybindings.LayerJson v }

/-- `GlobalAppSettings::LayerJson` (lines 191–241): the ten guarded blocks in
source order, mutating in place; a throw propagates immediately with the
fields assigned so far kept. -/
def GlobalAppSettings.LayerJson (s : GlobalAppSettings) (doc : JsonDoc) :
    Except GlobalAppSettings GlobalAppSettings := do
  let s ← fieldStep doc DefaultProfileKey parseDefaultProfile setDefaultProfile s
  let s ← fieldStep doc AlwaysShowTabsKey asBool setAlwaysShowTabs s
  let s ← fieldStep doc InitialRowsKey asInt setInitialRows s
  let s ← fieldStep doc InitialColsKey asInt setInitialCols s
  let s ← fieldStep doc ShowTitleInTitlebarKey asBool setShowTitleInTitlebar s
  let s ← fieldStep doc ShowTabsInTitlebarKey asBool setShowTabsInTitlebar s
  let s ← fieldStep doc WordDelimitersKey getWstringFromJson setWordDelimiters s
  let s ← fieldStep doc CopyOnSelectKey asBool setCopyOnSelect s
  let s ← fieldStep doc RequestedThemeKey parseRequestedTheme setRequestedTheme s
  fieldStep doc KeybindingsKey some layerKeybindings s

/-- `GlobalAppSettings::FromJson` (lines 184–189): default-construct, then
layer the document once (an exception escapes the factory). -/
def GlobalAppSettings.FromJson (doc : JsonDoc) :
    Except GlobalAppSettings GlobalAppSettings :=
  GlobalAppSettings.construct.LayerJson doc

/-- `GlobalAppSettings::AddColorScheme` (lines 290–294):
`_colorSchemes[scheme.GetName()] = scheme`. -/
def GlobalAppSettings.AddColorScheme (s : GlobalAppSettings) (scheme : ColorScheme) :
    GlobalAppSettings :=
  { s with colorSchemes := setKey s.colorSchemes scheme.name scheme }

/-- Modelled from the spec: the runtime settings object (`TerminalSettings`,
not in the snapshot) — the five projected fields plus representative theme,
tab-display and color fields that `ApplyToSettings` must leave untouched. -/
structure TerminalSettings where
  keyBindings : AppKeyBindings
  initialRows : Int
  initialCols : Int
  wordDelimiters : String
  copyOnSelect : Bool
  requestedTheme : ElementTheme
  showTabsUI : Bool
  colorTable : List Int

/-- `GlobalAppSettings::ApplyToSettings` (lines 145–152): a const method,
returned as the (unchanged) receiver paired with the updated target. -/
def GlobalAppSettings.ApplyToSettings (s : GlobalAppSettings)
    (settings : TerminalSettings) : GlobalAppSettings × TerminalSettings :=
  (s, { settings with
          keyBindings := s.keybindings
          initialRows := s.initialRows
          initialCols := s.initialCols
          wordDelimiters := s.wordDelimiters
          copyOnSelect := s.copyOnSelect })

/-- Final object state of a `LayerJson` outcome, whether it returned or
threw. -/
def layerState : Except GlobalAppSettings GlobalAppSettings → GlobalAppSettings
  | Except.ok s => s
  | Except.error s => s

/-! ### Hex / GUID lemmas -/

theorem hexVal_hexChar (m : Nat) (h : m < 16) : hexVal (hexChar m) = some m := by
  interval_cases m <;> decide

theorem takeHex_natToHex (d : Nat) : ∀ (acc n : Nat) (rest : List Char),
    takeHex acc d (natToHex d n ++ rest) = some (acc * 16 ^ d + n % 16 ^ d, rest) := by
  induction d with
  | zero =>
    intro acc n rest
    simp [natToHex, takeHex, Nat.mod_one]
  | succ d ih =>
    intro acc n rest
    have hm : n / 16 ^ d % 16 < 16 := Nat.mod_lt _ (by norm_num)
    simp only [natToHex, List.cons_append, takeHex, hexVal_hexChar _ hm, List.append_eq, ih]
    have harith : (acc * 16 + n / 16 ^ d % 16) * 16 ^ d + n % 16 ^ d =
        acc * 16 ^ (d + 1) + n % 16 ^ (d + 1) := by
      rw [pow_succ, Nat.mod_mul]
      ring
    rw [harith]

theorem guidFromString_guidToString (g : Nat) (h : g < 16 ^ 32) :
    guidFromString (guidToString g) = some g := by
  simp only [guidFromString, guidToString, expectChar, takeHex_natToHex,
    eq_self_iff_true, if_true, ite_true, Option.some.injEq]
  norm_num
  omega

/-! ### Generic lemmas about `fieldStep` and the `Except` chain -/

theorem fieldStep_eq_ok {β : Type} {doc : JsonDoc} {key : String}
    {parse : JValue → Option β} {set : GlobalAppSettings → β → GlobalAppSettings}
    {s t : GlobalAppSettings} :
    fieldStep doc key parse set s = Except.ok t ↔
      (jsonLookup doc key = none ∧ t = s) ∨
      (∃ v b, jsonLookup doc key = some v ∧ parse v = some b ∧ t = set s b) := by
  unfold fieldStep
  cases hl : jsonLookup doc key with
  | none => simp [eq_comm]
  | some v =>
    cases hp : parse v with
    | none => simp [hp]
    | some b => simp [hp, eq_comm]

theorem fieldStep_eq_error {β : Type} {doc : JsonDoc} {key : String}
    {parse : JValue → Option β} {set : GlobalAppSettings → β → GlobalAppSettings}
    {s t : GlobalAppSettings} :
    fieldStep doc key parse set s = Except.error t ↔
      t = s ∧ ∃ v, jsonLookup doc key = some v ∧ parse v = none := by
  unfold fieldStep
  cases hl : jsonLookup doc key with
  | none => simp
  | some v =>
    cases hp : parse v with
    | none => simp [hp, eq_comm]
    | some b => simp [hp]

theorem fieldStep_ok_shape {β : Type} {doc : JsonDoc} {key : String}
    {parse : JValue → Option β} {set : GlobalAppSettings → β → GlobalAppSettings}
    {s t : GlobalAppSettings} (h : fieldStep doc key parse set s = Except.ok t) :
    t = s ∨ ∃ v b, jsonLookup doc key = some v ∧ parse v = some b ∧ t = set s b := by
  rcases fieldStep_eq_ok.mp h with ⟨_, rfl⟩ | hex
  · exact Or.inl rfl
  · exact Or.inr hex

theorem except_bind_ok {ε α β : Type} {e : Except ε α} {f : α → Except ε β} {t : β} :
    (e >>= f) = Except.ok t ↔ ∃ m, e = Except.ok m ∧ f m = Except.ok t := by
  cases e <;> simp [Bind.bind, Except.bind]

theorem except_bind_error {ε α β : Type} {e : Except ε α} {f : α → Except ε β} {t : ε} :
    (e >>= f) = Except.error t ↔
      e = Except.error t ∨ ∃ m, e = Except.ok m ∧ f m = Except.error t := by
  cases e <;> simp [Bind.bind, Except.bind]

theorem layerState_ok {s : GlobalAppSettings} : layerState (Except.ok s) = s := rfl

theorem layerState_error {s : GlobalAppSettings} : layerState (Except.error s) = s := rfl

/-- Projection preservation through a single guarded block, whether it
returns or throws, provided the block's assignment does not touch the
projection. -/
theorem fieldStep_layerState_proj {β α : Type} (proj : GlobalAppSettings → α)
    (doc : JsonDoc) (key : String) (parse : JValue → Option β)
    (set : GlobalAppSettings → β → GlobalAppSettings)
    (hset : ∀ s b, proj (set s b) = proj s) (s : GlobalAppSettings) :
    proj (layerState (fieldStep doc key parse set s)) = proj s := by
  cases hl : jsonLookup doc key with
  | none => simp [fieldStep, hl, layerState]
  | some v =>
    cases hp : parse v with
    | none => simp [fieldStep, hl, hp, layerState]
    | some b => simp [fieldStep, hl, hp, layerState, hset]

/-- Projection preservation through a bind, given preservation of both
halves. -/
theorem bind_layerState_proj {α : Type} (proj : GlobalAppSettings → α)
    (st : GlobalAppSettings → Except GlobalAppSettings GlobalAppSettings)
    (f : GlobalAppSettings → Except GlobalAppSettings GlobalAppSettings)
    (h1 : ∀ s, proj (layerState (st s)) = proj s)
    (h2 : ∀ s, proj (layerState (f s)) = proj s) (s : GlobalAppSettings) :
    proj (layerState (st s >>= f)) = proj s := by
  have h1s := h1 s
  cases hst : st s with
  | error m =>
    rw [hst] at h1s
    simpa [Bind.bind, Except.bind, layerState] using h1s
  | ok m =>
    rw [hst] at h1s
    have h2m := h2 m
    simp only [Bind.bind, Except.bind, layerState] at h1s h2m ⊢
    rw [h2m, h1s]

/-- Master characterization of a successful `LayerJson` call: each recognized
key overwrites exactly its own field when present (with the parsed value),
an absent key leaves its field untouched, the keybindings key only layers
onto the owned set, and the color-scheme map is never written. -/
theorem layerJson_ok_spec (s : GlobalAppSettings) (doc : JsonDoc)
    (t : GlobalAppSettings) (h : s.LayerJson doc = Except.ok t) :
    ((jsonLookup doc DefaultProfileKey = none → t.defaultProfile = s.defaultProfile) ∧
     (∀ v, jsonLookup doc DefaultProfileKey = some v →
        ∃ b, parseDefaultProfile v = some b ∧ t.defaultProfile = b)) ∧
    ((jsonLookup doc AlwaysShowTabsKey = none → t.alwaysShowTabs = s.alwaysShowTabs) ∧
     (∀ v, jsonLookup doc AlwaysShowTabsKey = some v →
        ∃ b, asBool v = some b ∧ t.alwaysShowTabs = b)) ∧
    ((jsonLookup doc InitialRowsKey = none → t.initialRows = s.initialRows) ∧
     (∀ v, jsonLookup doc InitialRowsKey = some v →
        ∃ b, asInt v = some b ∧ t.initialRows = b)) ∧
    ((jsonLookup doc InitialColsKey = none → t.initialCols = s.initialCols) ∧
     (∀ v, jsonLookup doc InitialColsKey = some v →
        ∃ b, asInt v = some b ∧ t.initialCols = b)) ∧
    ((jsonLookup doc ShowTitleInTitlebarKey = none → t.showTitleInTitlebar = s.showTitleInTitlebar) ∧
     (∀ v, jsonLookup doc ShowTitleInTitlebarKey = some v →
        ∃ b, asBool v = some b ∧ t.showTitleInTitlebar = b)) ∧
    ((jsonLookup doc ShowTabsInTitlebarKey = none → t.showTabsInTitlebar = s.showTabsInTitlebar) ∧
     (∀ v, jsonLookup doc ShowTabsInTitlebarKey = some v →
        ∃ b, asBool v = some b ∧ t.showTabsInTitlebar = b)) ∧
    ((jsonLookup doc WordDelimitersKey = none → t.wordDelimiters = s.wordDelimiters) ∧
     (∀ v, jsonLookup doc WordDelimitersKey = some v →
        ∃ b, getWstringFromJson v = some b ∧ t.wordDelimiters = b)) ∧
    ((jsonLookup doc CopyOnSelectKey = none → t.copyOnSelect = s.copyOnSelect) ∧
     (∀ v, jsonLookup doc CopyOnSelectKey = some v →
        ∃ b, asBool v = some b ∧ t.copyOnSelect = b)) ∧
    ((jsonLookup doc RequestedThemeKey = none → t.requestedTheme = s.requestedTheme) ∧
     (∀ v, jsonLookup doc RequestedThemeKey = some v →
        ∃ b, parseRequestedTheme v = some b ∧ t.requestedTheme = b)) ∧
    ((jsonLookup doc KeybindingsKey = none → t.keybindings = s.keybindings) ∧
     (∀ v, jsonLookup doc KeybindingsKey = some v →
        t.keybindings = s.keybindings.LayerJson v)) ∧
    t.colorSchemes = s.colorSchemes := by
  simp only [GlobalAppSettings.LayerJson] at h
  rcases except_bind_ok.mp h with ⟨s1, h1, h⟩
  rcases except_bind_ok.mp h with ⟨s2, h2, h⟩
  rcases except_bind_ok.mp h with ⟨s3, h3, h⟩
  rcases except_bind_ok.mp h with ⟨s4, h4, h⟩
  rcases except_bind_ok.mp h with ⟨s5, h5, h⟩
  rcases except_bind_ok.mp h with ⟨s6, h6, h⟩
  rcases except_bind_ok.mp h with ⟨s7, h7, h⟩
  rcases except_bind_ok.mp h with ⟨s8, h8, h⟩
  rcases except_bind_ok.mp h with ⟨s9, h9, h⟩
  have h10 := h
  have pres_defaultProfile_2 : s2.defaultProfile = s1.defaultProfile := by
    rcases fieldStep_ok_shape h2 with rfl | ⟨v, b, hv, hp, rfl⟩ <;> rfl
  have pres_defaultProfile_3 : s3.defaultProfile = s2.defaultProfile := by
    rcases fieldStep_ok_shape h3 with rfl | ⟨v, b, hv, hp, rfl⟩ <;> rfl
  have pres_defaultProfile_4 : s4.defaultProfile = s3.defaultProfile := by
    rcases fieldStep_ok_shape h4 with rfl | ⟨v, b, hv, hp, rfl⟩ <;> rfl
  have pres_defaultProfile_5 : s5.defaultProfile = s4.defaultProfile := by
    rcases fieldStep_ok_shape h5 with rfl | ⟨v, b, hv, hp, rfl⟩ <;> rfl
  have pres_defaultProfile_6 : s6.defaultProfile = s5.defaultProfile := by
    rcases fieldStep_ok_shape h6 with rfl | ⟨v, b, hv, hp, rfl⟩ <;> rfl
  have pres_defaultProfile_7 : s7.defaultProfile = s6.defaultProfile := by
    rcases fieldStep_ok_shape h7 with rfl | ⟨v, b, hv, hp, rfl⟩ <;> rfl
  have pres_defaultProfile_8 : s8.defaultProfile = s7.defaultProfile := by
    rcases fieldStep_ok_shape h8 with rfl | ⟨v, b, hv, hp, rfl⟩ <;> rfl
  have pres_defaultProfile_9 : s9.defaultProfile = s8.defaultProfile := by
    rcases fieldStep_ok_shape h9 with rfl | ⟨v, b, hv, hp, rfl⟩ <;> rfl
  have pres_defaultProfile_10 : t.defaultProfile = s9.defaultProfile := by
    rcases fieldStep_ok_shape h10 with rfl | ⟨v, b, hv, hp, rfl⟩ <;> rfl
  have pres_alwaysShowTabs_1 : s1.alwaysShowTabs = s.alwaysShowTabs := by
    rcases fieldStep_ok_shape h1 with rfl | ⟨v, b, hv, hp, rfl⟩ <;> rfl
  have pres_alwaysShowTabs_3 : s3.alwaysShowTabs = s2.alwaysShowTabs := by
    rcases fieldStep_ok_shape h3 with rfl | ⟨v, b, hv, hp, rfl⟩ <;> rfl
  have pres_alwaysShowTabs_4 : s4.alwaysShowTabs = s3.alwaysShowTabs := by
    rcases fieldStep_ok_shape h4 with rfl | ⟨v, b, hv, hp, rfl⟩ <;> rfl
  have pres_alwaysShowTabs_5 : s5.alwaysShowTabs = s4.alwaysShowTabs := by
    rcases fieldStep_ok_shape h5 with rfl | ⟨v, b, hv, hp, rfl⟩ <;> rfl
  have pres_alwaysShowTabs_6 : s6.alwaysShowTabs = s5.alwaysShowTabs := by
    rcases fieldStep_ok_shape h6 with rfl | ⟨v, b, hv, hp, rfl⟩ <;> rfl
  have pres_alwaysShowTabs_7 : s7.alwaysShowTabs = s6.alwaysShowTabs := by
    rcases fieldStep_ok_shape h7 with rfl | ⟨v, b, hv, hp, rfl⟩ <;> rfl
  have pres_alwaysShowTabs_8 : s8.alwaysShowTabs = s7.alwaysShowTabs := by
    rcases fieldStep_ok_shape h8 with rfl | ⟨v, b, hv, hp, rfl⟩ <;> rfl
  have pres_alwaysShowTabs_9 : s9.alwaysShowTabs = s8.alwaysShowTabs := by
    rcases fieldStep_ok_shape h9 with rfl | ⟨v, b, hv, hp, rfl⟩ <;> rfl
  have pres_alwaysShowTabs_10 : t.alwaysShowTabs = s9.alwaysShowTabs := by
    rcases fieldStep_ok_shape h10 with rfl | ⟨v, b, hv, hp, rfl⟩ <;> rfl
  have pres_initialRows_1 : s1.initialRows = s.initialRows := by
    rcases fieldStep_ok_shape h1 with rfl | ⟨v, b, hv, hp, rfl⟩ <;> rfl
  have pres_initialRows_2 : s2.initialRows = s1.initialRows := by
    rcases fieldStep_ok_shape h2 with rfl | ⟨v, b, hv, hp, rfl⟩ <;> rfl
  have pres_initialRows_4 : s4.initialRows = s3.initialRows := by
    rcases fieldStep_ok_shape h4 with rfl | ⟨v, b, hv, hp, rfl⟩ <;> rfl
  have pres_initialRows_5 : s5.initialRows = s4.initialRows := by
    rcases fieldStep_ok_shape h5 with rfl | ⟨v, b, hv, hp, rfl⟩ <;> rfl
  have pres_initialRows_6 : s6.initialRows = s5.initialRows := by
    rcases fieldStep_ok_shape h6 with rfl | ⟨v, b, hv, hp, rfl⟩ <;> rfl
  have pres_initialRows_7 : s7.initialRows = s6.initialRows := by
    rcases fieldStep_ok_shape h7 with rfl | ⟨v, b, hv, hp, rfl⟩ <;> rfl
  have pres_initialRows_8 : s8.initialRows = s7.initialRows := by
    rcases fieldStep_ok_shape h8 with rfl | ⟨v, b, hv, hp, rfl⟩ <;> rfl
  have pres_initialRows_9 : s9.initialRows = s8.initialRows := by
    rcases fieldStep_ok_shape h9 with rfl | ⟨v, b, hv, hp, rfl⟩ <;> rfl
  have pres_initialRows_10 : t.initialRows = s9.initialRows := by
    rcases fieldStep_ok_shape h10 with rfl | ⟨v, b, hv, hp, rfl⟩ <;> rfl
  have pres_initialCols_1 : s1.initialCols = s.initialCols := by
    rcases fieldStep_ok_shape h1 with rfl | ⟨v, b, hv, hp, rfl⟩ <;> rfl
  have pres_initialCols_2 : s2.initialCols = s1.initialCols := by
    rcases fieldStep_ok_shape h2 with rfl | ⟨v, b, hv, hp, rfl⟩ <;> rfl
  have pres_initialCols_3 : s3.initialCols = s2.initialCols := by
    rcases fieldStep_ok_shape h3 with rfl | ⟨v, b, hv, hp, rfl⟩ <;> rfl
  have pres_initialCols_5 : s5.initialCols = s4.initialCols := by
    rcases fieldStep_ok_shape h5 with rfl | ⟨v, b, hv, hp, rfl⟩ <;> rfl
  have pres_initialCols_6 : s6.initialCols = s5.initialCols := by
    rcases fieldStep_ok_shape h6 with rfl | ⟨v, b, hv, hp, rfl⟩ <;> rfl
  have pres_initialCols_7 : s7.initialCols = s6.initialCols := by
    rcases fieldStep_ok_shape h7 with rfl | ⟨v, b, hv, hp, rfl⟩ <;> rfl
  have pres_initialCols_8 : s8.initialCols = s7.initialCols := by
    rcases fieldStep_ok_shape h8 with rfl | ⟨v, b, hv, hp, rfl⟩ <;> rfl
  have pres_initialCols_9 : s9.initialCols = s8.initialCols := by
    rcases fieldStep_ok_shape h9 with rfl | ⟨v, b, hv, hp, rfl⟩ <;> rfl
  have pres_initialCols_10 : t.initialCols = s9.initialCols := by
    rcases fieldStep_ok_shape h10 with rfl | ⟨v, b, hv, hp, rfl⟩ <;> rfl
  have pres_showTitleInTitlebar_1 : s1.showTitleInTitlebar = s.showTitleInTitlebar := by
    rcases fieldStep_ok_shape h1 with rfl | ⟨v, b, hv, hp, rfl⟩ <;> rfl
  have pres_showTitleInTitlebar_2 : s2.showTitleInTitlebar = s1.showTitleInTitlebar := by
    rcases fieldStep_ok_shape h2 with rfl | ⟨v, b, hv, hp, rfl⟩ <;> rfl
  have pres_showTitleInTitlebar_3 : s3.showTitleInTitlebar = s2.showTitleInTitlebar := by
    rcases fieldStep_ok_shape h3 with rfl | ⟨v, b, hv, hp, rfl⟩ <;> rfl
  have pres_showTitleInTitlebar_4 : s4.showTitleInTitlebar = s3.showTitleInTitlebar := by
    rcases fieldStep_ok_shape h4 with rfl | ⟨v, b, hv, hp, rfl⟩ <;> rfl
  have pres_showTitleInTitlebar_6 : s6.showTitleInTitlebar = s5.showTitleInTitlebar := by
    rcases fieldStep_ok_shape h6 with rfl | ⟨v, b, hv, hp, rfl⟩ <;> rfl
  have pres_showTitleInTitlebar_7 : s7.showTitleInTitlebar = s6.showTitleInTitlebar := by
    rcases fieldStep_ok_shape h7 with rfl | ⟨v, b, hv, hp, rfl⟩ <;> rfl
  have pres_showTitleInTitlebar_8 : s8.showTitleInTitlebar = s7.showTitleInTitlebar := by
    rcases fieldStep_ok_shape h8 with rfl | ⟨v, b, hv, hp, rfl⟩ <;> rfl
  have pres_showTitleInTitlebar_9 : s9.showTitleInTitlebar = s8.showTitleInTitlebar := by
    rcases fieldStep_ok_shape h9 with rfl | ⟨v, b, hv, hp, rfl⟩ <;> rfl
  have pres_showTitleInTitlebar_10 : t.showTitleInTitlebar = s9.showTitleInTitlebar := by
    rcases fieldStep_ok_shape h10 with rfl | ⟨v, b, hv, hp, rfl⟩ <;> rfl
  have pres_showTabsInTitlebar_1 : s1.showTabsInTitlebar = s.showTabsInTitlebar := by
    rcases fieldStep_ok_shape h1 with rfl | ⟨v, b, hv, hp, rfl⟩ <;> rfl
  have pres_showTabsInTitlebar_2 : s2.showTabsInTitlebar = s1.showTabsInTitlebar := by
    rcases fieldStep_ok_shape h2 with rfl | ⟨v, b, hv, hp, rfl⟩ <;> rfl
  have pres_showTabsInTitlebar_3 : s3.showTabsInTitlebar = s2.showTabsInTitlebar := by
    rcases fieldStep_ok_shape h3 with rfl | ⟨v, b, hv, hp, rfl⟩ <;> rfl
  have pres_showTabsInTitlebar_4 : s4.showTabsInTitlebar = s3.showTabsInTitlebar := by
    rcases fieldStep_ok_shape h4 with rfl | ⟨v, b, hv, hp, rfl⟩ <;> rfl
  have pres_showTabsInTitlebar_5 : s5.showTabsInTitlebar = s4.showTabsInTitlebar := by
    rcases fieldStep_ok_shape h5 with rfl | ⟨v, b, hv, hp, rfl⟩ <;> rfl
  have pres_showTabsInTitlebar_7 : s7.showTabsInTitlebar = s6.showTabsInTitlebar := by
    rcases fieldStep_ok_shape h7 with rfl | ⟨v, b, hv, hp, rfl⟩ <;> rfl
  have pres_showTabsInTitlebar_8 : s8.showTabsInTitlebar = s7.showTabsInTitlebar := by
    rcases fieldStep_ok_shape h8 with rfl | ⟨v, b, hv, hp, rfl⟩ <;> rfl
  have pres_showTabsInTitlebar_9 : s9.showTabsInTitlebar = s8.showTabsInTitlebar := by
    rcases fieldStep_ok_shape h9 with rfl | ⟨v, b, hv, hp, rfl⟩ <;> rfl
  have pres_showTabsInTitlebar_10 : t.showTabsInTitlebar = s9.showTabsInTitlebar := by
    rcases fieldStep_ok_shape h10 with rfl | ⟨v, b, hv, hp, rfl⟩ <;> rfl
  have pres_wordDelimiters_1 : s1.wordDelimiters = s.wordDelimiters := by
    rcases fieldStep_ok_shape h1 with rfl | ⟨v, b, hv, hp, rfl⟩ <;> rfl
  have pres_wordDelimiters_2 : s2.wordDelimiters = s1.wordDelimiters := by
    rcases fieldStep_ok_shape h2 with rfl | ⟨v, b, hv, hp, rfl⟩ <;> rfl
  have pres_wordDelimiters_3 : s3.wordDelimiters = s2.wordDelimiters := by
    rcases fieldStep_ok_shape h3 with rfl | ⟨v, b, hv, hp, rfl⟩ <;> rfl
  have pres_wordDelimiters_4 : s4.wordDelimiters = s3.wordDelimiters := by
    rcases fieldStep_ok_shape h4 with rfl | ⟨v, b, hv, hp, rfl⟩ <;> rfl
  have pres_wordDelimiters_5 : s5.wordDelimiters = s4.wordDelimiters := by
    rcases fieldStep_ok_shape h5 with rfl | ⟨v, b, hv, hp, rfl⟩ <;> rfl
  have pres_wordDelimiters_6 : s6.wordDelimiters = s5.wordDelimiters := by
    rcases fieldStep_ok_shape h6 with rfl | ⟨v, b, hv, hp, rfl⟩ <;> rfl
  have pres_wordDelimiters_8 : s8.wordDelimiters = s7.wordDelimiters := by
    rcases fieldStep_ok_shape h8 with rfl | ⟨v, b, hv, hp, rfl⟩ <;> rfl
  have pres_wordDelimiters_9 : s9.wordDelimiters = s8.wordDelimiters := by
    rcases fieldStep_ok_shape h9 with rfl | ⟨v, b, hv, hp, rfl⟩ <;> rfl
  have pres_wordDelimiters_10 : t.wordDelimiters = s9.wordDelimiters := by
    rcases fieldStep_ok_shape h10 with rfl | ⟨v, b, hv, hp, rfl⟩ <;> rfl
  have pres_copyOnSelect_1 : s1.copyOnSelect = s.copyOnSelect := by
    rcases fieldStep_ok_shape h1 with rfl | ⟨v, b, hv, hp, rfl⟩ <;> rfl
  have pres_copyOnSelect_2 : s2.copyOnSelect = s1.copyOnSelect := by
    rcases fieldStep_ok_shape h2 with rfl | ⟨v, b, hv, hp, rfl⟩ <;> rfl
  have pres_copyOnSelect_3 : s3.copyOnSelect = s2.copyOnSelect := by
    rcases fieldStep_ok_shape h3 with rfl | ⟨v, b, hv, hp, rfl⟩ <;> rfl
  have pres_copyOnSelect_4 : s4.copyOnSelect = s3.copyOnSelect := by
    rcases fieldStep_ok_shape h4 with rfl | ⟨v, b, hv, hp, rfl⟩ <;> rfl
  have pres_copyOnSelect_5 : s5.copyOnSelect = s4.copyOnSelect := by
    rcases fieldStep_ok_shape h5 with rfl | ⟨v, b, hv, hp, rfl⟩ <;> rfl
  have pres_copyOnSelect_6 : s6.copyOnSelect = s5.copyOnSelect := by
    rcases fieldStep_ok_shape h6 with rfl | ⟨v, b, hv, hp, rfl⟩ <;> rfl
  have pres_copyOnSelect_7 : s7.copyOnSelect = s6.copyOnSelect := by
    rcases fieldStep_ok_shape h7 with rfl | ⟨v, b, hv, hp, rfl⟩ <;> rfl
  have pres_copyOnSelect_9 : s9.copyOnSelect = s8.copyOnSelect := by
    rcases fieldStep_ok_shape h9 with rfl | ⟨v, b, hv, hp, rfl⟩ <;> rfl
  have pres_copyOnSelect_10 : t.copyOnSelect = s9.copyOnSelect := by
    rcases fieldStep_ok_shape h10 with rfl | ⟨v, b, hv, hp, rfl⟩ <;> rfl
  have pres_requestedTheme_1 : s1.requestedTheme = s.requestedTheme := by
    rcases fieldStep_ok_shape h1 with rfl | ⟨v, b, hv, hp, rfl⟩ <;> rfl
  have pres_requestedTheme_2 : s2.requestedTheme = s1.requestedTheme := by
    rcases fieldStep_ok_shape h2 with rfl | ⟨v, b, hv, hp, rfl⟩ <;> rfl
  have pres_requestedTheme_3 : s3.requestedTheme = s2.requestedTheme := by
    rcases fieldStep_ok_shape h3 with rfl | ⟨v, b, hv, hp, rfl⟩ <;> rfl
  have pres_requestedTheme_4 : s4.requestedTheme = s3.requestedTheme := by
    rcases fieldStep_ok_shape h4 with rfl | ⟨v, b, hv, hp, rfl⟩ <;> rfl
  have pres_requestedTheme_5 : s5.requestedTheme = s4.requestedTheme := by
    rcases fieldStep_ok_shape h5 with rfl | ⟨v, b, hv, hp, rfl⟩ <;> rfl
  have pres_requestedTheme_6 : s6.requestedTheme = s5.requestedTheme := by
    rcases fieldStep_ok_shape h6 with rfl | ⟨v, b, hv, hp, rfl⟩ <;> rfl
  have pres_requestedTheme_7 : s7.requestedTheme = s6.requestedTheme := by
    rcases fieldStep_ok_shape h7 with rfl | ⟨v, b, hv, hp, rfl⟩ <;> rfl
  have pres_requestedTheme_8 : s8.requestedTheme = s7.requestedTheme := by
    rcases fieldStep_ok_shape h8 with rfl | ⟨v, b, hv, hp, rfl⟩ <;> rfl
  have pres_requestedTheme_10 : t.requestedTheme = s9.requestedTheme := by
    rcases fieldStep_ok_shape h10 with rfl | ⟨v, b, hv, hp, rfl⟩ <;> rfl
  have pres_keybindings_1 : s1.keybindings = s.keybindings := by
    rcases fieldStep_ok_shape h1 with rfl | ⟨v, b, hv, hp, rfl⟩ <;> rfl
  have pres_keybindings_2 : s2.keybindings = s1.keybindings := by
    rcases fieldStep_ok_shape h2 with rfl | ⟨v, b, hv, hp, rfl⟩ <;> rfl
  have pres_keybindings_3 : s3.keybindings = s2.keybindings := by
    rcases fieldStep_ok_shape h3 with rfl | ⟨v, b, hv, hp, rfl⟩ <;> rfl
  have pres_keybindings_4 : s4.keybindings = s3.keybindings := by
    rcases fieldStep_ok_shape h4 with rfl | ⟨v, b, hv, hp, rfl⟩ <;> rfl
  have pres_keybindings_5 : s5.keybindings = s4.keybindings := by
    rcases fieldStep_ok_shape h5 with rfl | ⟨v, b, hv, hp, rfl⟩ <;> rfl
  have pres_keybindings_6 : s6.keybindings = s5.keybindings := by
    rcases fieldStep_ok_shape h6 with rfl | ⟨v, b, hv, hp, rfl⟩ <;> rfl
  have pres_keybindings_7 : s7.keybindings = s6.keybindings := by
    rcases fieldStep_ok_shape h7 with rfl | ⟨v, b, hv, hp, rfl⟩ <;> rfl
  have pres_keybindings_8 : s8.keybindings = s7.keybindings := by
    rcases fieldStep_ok_shape h8 with rfl | ⟨v, b, hv, hp, rfl⟩ <;> rfl
  have pres_keybindings_9 : s9.keybindings = s8.keybindings := by
    rcases fieldStep_ok_shape h9 with rfl | ⟨v, b, hv, hp, rfl⟩ <;> rfl
  have pres_cs_1 : s1.colorSchemes = s.colorSchemes := by
    rcases fieldStep_ok_shape h1 with rfl | ⟨v, b, hv, hp, rfl⟩ <;> rfl
  have pres_cs_2 : s2.colorSchemes = s1.colorSchemes := by
    rcases fieldStep_ok_shape h2 with rfl | ⟨v, b, hv, hp, rfl⟩ <;> rfl
  have pres_cs_3 : s3.colorSchemes = s2.colorSchemes := by
    rcases fieldStep_ok_shape h3 with rfl | ⟨v, b, hv, hp, rfl⟩ <;> rfl
  have pres_cs_4 : s4.colorSchemes = s3.colorSchemes := by
    rcases fieldStep_ok_shape h4 with rfl | ⟨v, b, hv, hp, rfl⟩ <;> rfl
  have pres_cs_5 : s5.colorSchemes = s4.colorSchemes := by
    rcases fieldStep_ok_shape h5 with rfl | ⟨v, b, hv, hp, rfl⟩ <;> rfl
  have pres_cs_6 : s6.colorSchemes = s5.colorSchemes := by
    rcases fieldStep_ok_shape h6 with rfl | ⟨v, b, hv, hp, rfl⟩ <;> rfl
  have pres_cs_7 : s7.colorSchemes = s6.colorSchemes := by
    rcases fieldStep_ok_shape h7 with rfl | ⟨v, b, hv, hp, rfl⟩ <;> rfl
  have pres_cs_8 : s8.colorSchemes = s7.colorSchemes := by
    rcases fieldStep_ok_shape h8 with rfl | ⟨v, b, hv, hp, rfl⟩ <;> rfl
  have pres_cs_9 : s9.colorSchemes = s8.colorSchemes := by
    rcases fieldStep_ok_shape h9 with rfl | ⟨v, b, hv, hp, rfl⟩ <;> rfl
  have pres_cs_10 : t.colorSchemes = s9.colorSchemes := by
    rcases fieldStep_ok_shape h10 with rfl | ⟨v, b, hv, hp, rfl⟩ <;> rfl
  have abs_defaultProfile : jsonLookup doc DefaultProfileKey = none → t.defaultProfile = s.defaultProfile := by
    intro hn
    have hstep : s1 = s := by
      rcases fieldStep_eq_ok.mp h1 with ⟨_, rfl⟩ | ⟨v, b, hv, hp, heq⟩
      · rfl
      · rw [hn] at hv
        exact Option.noConfusion hv
    rw [pres_defaultProfile_10, pres_defaultProfile_9, pres_defaultProfile_8, pres_defaultProfile_7, pres_defaultProfile_6, pres_defaultProfile_5, pres_defaultProfile_4, pres_defaultProfile_3, pres_defaultProfile_2, hstep]
  have hit_defaultProfile : ∀ v, jsonLookup doc DefaultProfileKey = some v →
      ∃ b, parseDefaultProfile v = some b ∧ t.defaultProfile = b := by
    intro v hv
    rcases fieldStep_eq_ok.mp h1 with ⟨hn, _⟩ | ⟨v₁, b, hv₁, hp, heq⟩
    · rw [hv] at hn
      exact Option.noConfusion hn
    · rw [hv] at hv₁
      injection hv₁ with hvv
      subst hvv
      refine ⟨b, hp, ?_⟩
      rw [pres_defaultProfile_10, pres_defaultProfile_9, pres_defaultProfile_8, pres_defaultProfile_7, pres_defaultProfile_6, pres_defaultProfile_5, pres_defaultProfile_4, pres_defaultProfile_3, pres_defaultProfile_2, heq]
      rfl
  have abs_alwaysShowTabs : jsonLookup doc AlwaysShowTabsKey = none → t.alwaysShowTabs = s.alwaysShowTabs := by
    intro hn
    have hstep : s2 = s1 := by
      rcases fieldStep_eq_ok.mp h2 with ⟨_, rfl⟩ | ⟨v, b, hv, hp, heq⟩
      · rfl
      · rw [hn] at hv
        exact Option.noConfusion hv
    rw [pres_alwaysShowTabs_10, pres_alwaysShowTabs_9, pres_alwaysShowTabs_8, pres_alwaysShowTabs_7, pres_alwaysShowTabs_6, pres_alwaysShowTabs_5, pres_alwaysShowTabs_4, pres_alwaysShowTabs_3, hstep, pres_alwaysShowTabs_1]
  have hit_alwaysShowTabs : ∀ v, jsonLookup doc AlwaysShowTabsKey = some v →
      ∃ b, asBool v = some b ∧ t.alwaysShowTabs = b := by
    intro v hv
    rcases fieldStep_eq_ok.mp h2 with ⟨hn, _⟩ | ⟨v₁, b, hv₁, hp, heq⟩
    · rw [hv] at hn
      exact Option.noConfusion hn
    · rw [hv] at hv₁
      injection hv₁ with hvv
      subst hvv
      refine ⟨b, hp, ?_⟩
      rw [pres_alwaysShowTabs_10, pres_alwaysShowTabs_9, pres_alwaysShowTabs_8, pres_alwaysShowTabs_7, pres_alwaysShowTabs_6, pres_alwaysShowTabs_5, pres_alwaysShowTabs_4, pres_alwaysShowTabs_3, heq]
      rfl
  have abs_initialRows : jsonLookup doc InitialRowsKey = none → t.initialRows = s.initialRows := by
    intro hn
    have hstep : s3 = s2 := by
      rcases fieldStep_eq_ok.mp h3 with ⟨_, rfl⟩ | ⟨v, b, hv, hp, heq⟩
      · rfl
      · rw [hn] at hv
        exact Option.noConfusion hv
    rw [pres_initialRows_10, pres_initialRows_9, pres_initialRows_8, pres_initialRows_7, pres_initialRows_6, pres_initialRows_5, pres_initialRows_4, hstep, pres_initialRows_2, pres_initialRows_1]
  have hit_initialRows : ∀ v, jsonLookup doc InitialRowsKey = some v →
      ∃ b, asInt v = some b ∧ t.initialRows = b := by
    intro v hv
    rcases fieldStep_eq_ok.mp h3 with ⟨hn, _⟩ | ⟨v₁, b, hv₁, hp, heq⟩
    · rw [hv] at hn
      exact Option.noConfusion hn
    · rw [hv] at hv₁
      injection hv₁ with hvv
      subst hvv
      refine ⟨b, hp, ?_⟩
      rw [pres_initialRows_10, pres_initialRows_9, pres_initialRows_8, pres_initialRows_7, pres_initialRows_6, pres_initialRows_5, pres_initialRows_4, heq]
      rfl
  have abs_initialCols : jsonLookup doc InitialColsKey = none → t.initialCols = s.initialCols := by
    intro hn
    have hstep : s4 = s3 := by
      rcases fieldStep_eq_ok.mp h4 with ⟨_, rfl⟩ | ⟨v, b, hv, hp, heq⟩
      · rfl
      · rw [hn] at hv
        exact Option.noConfusion hv
    rw [pres_initialCols_10, pres_initialCols_9, pres_initialCols_8, pres_initialCols_7, pres_initialCols_6, pres_initialCols_5, hstep, pres_initialCols_3, pres_initialCols_2, pres_initialCols_1]
  have hit_initialCols : ∀ v, jsonLookup doc InitialColsKey = some v →
      ∃ b, asInt v = some b ∧ t.initialCols = b := by
    intro v hv
    rcases fieldStep_eq_ok.mp h4 with ⟨hn, _⟩ | ⟨v₁, b, hv₁, hp, heq⟩
    · rw [hv] at hn
      exact Option.noConfusion hn
    · rw [hv] at hv₁
      injection hv₁ with hvv
      subst hvv
      refine ⟨b, hp, ?_⟩
      rw [pres_initialCols_10, pres_initialCols_9, pres_initialCols_8, pres_initialCols_7, pres_initialCols_6, pres_initialCols_5, heq]
      rfl
  have abs_showTitleInTitlebar : jsonLookup doc ShowTitleInTitlebarKey = none → t.showTitleInTitlebar = s.showTitleInTitlebar := by
    intro hn
    have hstep : s5 = s4 := by
      rcases fieldStep_eq_ok.mp h5 with ⟨_, rfl⟩ | ⟨v, b, hv, hp, heq⟩
      · rfl
      · rw [hn] at hv
        exact Option.noConfusion hv
    rw [pres_showTitleInTitlebar_10, pres_showTitleInTitlebar_9, pres_showTitleInTitlebar_8, pres_showTitleInTitlebar_7, pres_showTitleInTitlebar_6, hstep, pres_showTitleInTitlebar_4, pres_showTitleInTitlebar_3, pres_showTitleInTitlebar_2, pres_showTitleInTitlebar_1]
  have hit_showTitleInTitlebar : ∀ v, jsonLookup doc ShowTitleInTitlebarKey = some v →
      ∃ b, asBool v = some b ∧ t.showTitleInTitlebar = b := by
    intro v hv
    rcases fieldStep_eq_ok.mp h5 with ⟨hn, _⟩ | ⟨v₁, b, hv₁, hp, heq⟩
    · rw [hv] at hn
      exact Option.noConfusion hn
    · rw [hv] at hv₁
      injection hv₁ with hvv
      subst hvv
      refine ⟨b, hp, ?_⟩
      rw [pres_showTitleInTitlebar_10, pres_showTitleInTitlebar_9, pres_showTitleInTitlebar_8, pres_showTitleInTitlebar_7, pres_showTitleInTitlebar_6, heq]
      rfl
  have abs_showTabsInTitlebar : jsonLookup doc ShowTabsInTitlebarKey = none → t.showTabsInTitlebar = s.showTabsInTitlebar := by
    intro hn
    have hstep : s6 = s5 := by
      rcases fieldStep_eq_ok.mp h6 with ⟨_, rfl⟩ | ⟨v, b, hv, hp, heq⟩
      · rfl
      · rw [hn] at hv
        exact Option.noConfusion hv
    rw [pres_showTabsInTitlebar_10, pres_showTabsInTitlebar_9, pres_showTabsInTitlebar_8, pres_showTabsInTitlebar_7, hstep, pres_showTabsInTitlebar_5, pres_showTabsInTitlebar_4, pres_showTabsInTitlebar_3, pres_showTabsInTitlebar_2, pres_showTabsInTitlebar_1]
  have hit_showTabsInTitlebar : ∀ v, jsonLookup doc ShowTabsInTitlebarKey = some v →
      ∃ b, asBool v = some b ∧ t.showTabsInTitlebar = b := by
    intro v hv
    rcases fieldStep_eq_ok.mp h6 with ⟨hn, _⟩ | ⟨v₁, b, hv₁, hp, heq⟩
    · rw [hv] at hn
      exact Option.noConfusion hn
    · rw [hv] at hv₁
      injection hv₁ with hvv
      subst hvv
      refine ⟨b, hp, ?_⟩
      rw [pres_showTabsInTitlebar_10, pres_showTabsInTitlebar_9, pres_showTabsInTitlebar_8, pres_showTabsInTitlebar_7, heq]
      rfl
  have abs_wordDelimiters : jsonLookup doc WordDelimitersKey = none → t.wordDelimiters = s.wordDelimiters := by
    intro hn
    have hstep : s7 = s6 := by
      rcases fieldStep_eq_ok.mp h7 with ⟨_, rfl⟩ | ⟨v, b, hv, hp, heq⟩
      · rfl
      · rw [hn] at hv
        exact Option.noConfusion hv
    rw [pres_wordDelimiters_10, pres_wordDelimiters_9, pres_wordDelimiters_8, hstep, pres_wordDelimiters_6, pres_wordDelimiters_5, pres_wordDelimiters_4, pres_wordDelimiters_3, pres_wordDelimiters_2, pres_wordDelimiters_1]
  have hit_wordDelimiters : ∀ v, jsonLookup doc WordDelimitersKey = some v →
      ∃ b, getWstringFromJson v = some b ∧ t.wordDelimiters = b := by
    intro v hv
    rcases fieldStep_eq_ok.mp h7 with ⟨hn, _⟩ | ⟨v₁, b, hv₁, hp, heq⟩
    · rw [hv] at hn
      exact Option.noConfusion hn
    · rw [hv] at hv₁
      injection hv₁ with hvv
      subst hvv
      refine ⟨b, hp, ?_⟩
      rw [pres_wordDelimiters_10, pres_wordDelimiters_9, pres_wordDelimiters_8, heq]
      rfl
  have abs_copyOnSelect : jsonLookup doc CopyOnSelectKey = none → t.copyOnSelect = s.copyOnSelect := by
    intro hn
    have hstep : s8 = s7 := by
      rcases fieldStep_eq_ok.mp h8 with ⟨_, rfl⟩ | ⟨v, b, hv, hp, heq⟩
      · rfl
      · rw [hn] at hv
        exact Option.noConfusion hv
    rw [pres_copyOnSelect_10, pres_copyOnSelect_9, hstep, pres_copyOnSelect_7, pres_copyOnSelect_6, pres_copyOnSelect_5, pres_copyOnSelect_4, pres_copyOnSelect_3, pres_copyOnSelect_2, pres_copyOnSelect_1]
  have hit_copyOnSelect : ∀ v, jsonLookup doc CopyOnSelectKey = some v →
      ∃ b, asBool v = some b ∧ t.copyOnSelect = b := by
    intro v hv
    rcases fieldStep_eq_ok.mp h8 with ⟨hn, _⟩ | ⟨v₁, b, hv₁, hp, heq⟩
    · rw [hv] at hn
      exact Option.noConfusion hn
    · rw [hv] at hv₁
      injection hv₁ with hvv
      subst hvv
      refine ⟨b, hp, ?_⟩
      rw [pres_copyOnSelect_10, pres_copyOnSelect_9, heq]
      rfl
  have abs_requestedTheme : jsonLookup doc RequestedThemeKey = none → t.requestedTheme = s.requestedTheme := by
    intro hn
    have hstep : s9 = s8 := by
      rcases fieldStep_eq_ok.mp h9 with ⟨_, rfl⟩ | ⟨v, b, hv, hp, heq⟩
      · rfl
      · rw [hn] at hv
        exact Option.noConfusion hv
    rw [pres_requestedTheme_10, hstep, pres_requestedTheme_8, pres_requestedTheme_7, pres_requestedTheme_6, pres_requestedTheme_5, pres_requestedTheme_4, pres_requestedTheme_3, pres_requestedTheme_2, pres_requestedTheme_1]
  have hit_requestedTheme : ∀ v, jsonLookup doc RequestedThemeKey = some v →
      ∃ b, parseRequestedTheme v = some b ∧ t.requestedTheme = b := by
    intro v hv
    rcases fieldStep_eq_ok.mp h9 with ⟨hn, _⟩ | ⟨v₁, b, hv₁, hp, heq⟩
    · rw [hv] at hn
      exact Option.noConfusion hn
    · rw [hv] at hv₁
      injection hv₁ with hvv
      subst hvv
      refine ⟨b, hp, ?_⟩
      rw [pres_requestedTheme_10, heq]
      rfl
  have abs_keybindings : jsonLookup doc KeybindingsKey = none → t.keybindings = s.keybindings := by
    intro hn
    have hstep : t = s9 := by
      rcases fieldStep_eq_ok.mp h10 with ⟨_, rfl⟩ | ⟨v, b, hv, hp, heq⟩
      · rfl
      · rw [hn] at hv
        exact Option.noConfusion hv
    rw [hstep, pres_keybindings_9, pres_keybindings_8, pres_keybindings_7, pres_keybindings_6, pres_keybindings_5, pres_keybindings_4, pres_keybindings_3, pres_keybindings_2, pres_keybindings_1]
  have hit_keybindings : ∀ v, jsonLookup doc KeybindingsKey = some v →
      t.keybindings = s.keybindings.LayerJson v := by
    intro v hv
    rcases fieldStep_eq_ok.mp h10 with ⟨hn, _⟩ | ⟨v₁, b, hv₁, hp, heq⟩
    · rw [hv] at hn
      exact Option.noConfusion hn
    · rw [hv] at hv₁
      injection hv₁ with hvv
      subst hvv
      injection hp with hpb
      subst hpb
      rw [heq]
      show AppKeyBindings.LayerJson s9.keybindings v = AppKeyBindings.LayerJson s.keybindings v
      rw [pres_keybindings_9, pres_keybindings_8, pres_keybindings_7, pres_keybindings_6, pres_keybindings_5, pres_keybindings_4, pres_keybindings_3, pres_keybindings_2, pres_keybindings_1]
  have cs_eq : t.colorSchemes = s.colorSchemes := by
    rw [pres_cs_10, pres_cs_9, pres_cs_8, pres_cs_7, pres_cs_6, pres_cs_5, pres_cs_4, pres_cs_3, pres_cs_2, pres_cs_1]
  exact ⟨⟨abs_defaultProfile, hit_defaultProfile⟩, ⟨abs_alwaysShowTabs, hit_alwaysShowTabs⟩, ⟨abs_initialRows, hit_initialRows⟩, ⟨abs_initialCols, hit_initialCols⟩, ⟨abs_showTitleInTitlebar, hit_showTitleInTitlebar⟩, ⟨abs_showTabsInTitlebar, hit_showTabsInTitlebar⟩, ⟨abs_wordDelimiters, hit_wordDelimiters⟩, ⟨abs_copyOnSelect, hit_copyOnSelect⟩, ⟨abs_requestedTheme, hit_requestedTheme⟩, ⟨abs_keybindings, hit_keybindings⟩, cs_eq⟩

theorem except_ok_bind {ε α β : Type} (x : α) (f : α → Except ε β) :
    ((Except.ok x : Except ε α) >>= f) = f x := rfl

theorem layerJson_nil_aux (s : GlobalAppSettings) : s.LayerJson [] = Except.ok s := rfl

theorem parseTheme_serializeTheme (th : ElementTheme) :
    GlobalAppSettings._ParseTheme (GlobalAppSettings._SerializeTheme th) = th := by
  cases th <;> rfl

/-- The scheme map is never written by `LayerJson`, whether it returns or
throws. -/
theorem layerState_colorSchemes (doc : JsonDoc) (s : GlobalAppSettings) :
    (layerState (s.LayerJson doc)).colorSchemes = s.colorSchemes := by
  simp only [GlobalAppSettings.LayerJson]
  refine bind_layerState_proj (fun g => g.colorSchemes) _ _ ?_ (fun u1 => ?_) s
  · exact fieldStep_layerState_proj _ doc _ _ _ (fun _ _ => rfl)
  refine bind_layerState_proj (fun g => g.colorSchemes) _ _ ?_ (fun u2 => ?_) u1
  · exact fieldStep_layerState_proj _ doc _ _ _ (fun _ _ => rfl)
  refine bind_layerState_proj (fun g => g.colorSchemes) _ _ ?_ (fun u3 => ?_) u2
  · exact fieldStep_layerState_proj _ doc _ _ _ (fun _ _ => rfl)
  refine bind_layerState_proj (fun g => g.colorSchemes) _ _ ?_ (fun u4 => ?_) u3
  · exact fieldStep_layerState_proj _ doc _ _ _ (fun _ _ => rfl)
  refine bind_layerState_proj (fun g => g.colorSchemes) _ _ ?_ (fun u5 => ?_) u4
  · exact fieldStep_layerState_proj _ doc _ _ _ (fun _ _ => rfl)
  refine bind_layerState_proj (fun g => g.colorSchemes) _ _ ?_ (fun u6 => ?_) u5
  · exact fieldStep_layerState_proj _ doc _ _ _ (fun _ _ => rfl)
  refine bind_layerState_proj (fun g => g.colorSchemes) _ _ ?_ (fun u7 => ?_) u6
  · exact fieldStep_layerState_proj _ doc _ _ _ (fun _ _ => rfl)
  refine bind_layerState_proj (fun g => g.colorSchemes) _ _ ?_ (fun u8 => ?_) u7
  · exact fieldStep_layerState_proj _ doc _ _ _ (fun _ _ => rfl)
  refine bind_layerState_proj (fun g => g.colorSchemes) _ _ ?_ (fun u9 => ?_) u8
  · exact fieldStep_layerState_proj _ doc _ _ _ (fun _ _ => rfl)
  refine fieldStep_layerState_proj _ doc _ _ _ ?_ u9
  intro a b
  rfl

/-- A throwing `LayerJson` never reached the keybindings assignment: the
owned set is as before the call (earlier blocks leave it alone and the
keybindings block itself cannot throw). -/
theorem layerJson_error_keybindings (s : GlobalAppSettings) (doc : JsonDoc)
    (t : GlobalAppSettings) (h : s.LayerJson doc = Except.error t) :
    t.keybindings = s.keybindings := by
  simp only [GlobalAppSettings.LayerJson] at h
  rcases except_bind_error.mp h with herr | ⟨s1, h1, h⟩
  · rcases fieldStep_eq_error.mp herr with ⟨hteq, _⟩
    rw [hteq]
  rcases except_bind_error.mp h with herr | ⟨s2, h2, h⟩
  · rcases fieldStep_eq_error.mp herr with ⟨hteq, _⟩
    have p1 : s1.keybindings = s.keybindings := by
      rcases fieldStep_ok_shape h1 with rfl | ⟨v, b, hv, hp, rfl⟩ <;> rfl
    rw [hteq, p1]
  rcases except_bind_error.mp h with herr | ⟨s3, h3, h⟩
  · rcases fieldStep_eq_error.mp herr with ⟨hteq, _⟩
    have p1 : s1.keybindings = s.keybindings := by
      rcases fieldStep_ok_shape h1 with rfl | ⟨v, b, hv, hp, rfl⟩ <;> rfl
    have p2 : s2.keybindings = s1.keybindings := by
      rcases fieldStep_ok_shape h2 with rfl | ⟨v, b, hv, hp, rfl⟩ <;> rfl
    rw [hteq, p2, p1]
  rcases except_bind_error.mp h with herr | ⟨s4, h4, h⟩
  · rcases fieldStep_eq_error.mp herr with ⟨hteq, _⟩
    have p1 : s1.keybindings = s.keybindings := by
      rcases fieldStep_ok_shape h1 with rfl | ⟨v, b, hv, hp, rfl⟩ <;> rfl
    have p2 : s2.keybindings = s1.keybindings := by
      rcases fieldStep_ok_shape h2 with rfl | ⟨v, b, hv, hp, rfl⟩ <;> rfl
    have p3 : s3.keybindings = s2.keybindings := by
      rcases fieldStep_ok_shape h3 with rfl | ⟨v, b, hv, hp, rfl⟩ <;> rfl
    rw [hteq, p3, p2, p1]
  rcases except_bind_error.mp h with herr | ⟨s5, h5, h⟩
  · rcases fieldStep_eq_error.mp herr with ⟨hteq, _⟩
    have p1 : s1.keybindings = s.keybindings := by
      rcases fieldStep_ok_shape h1 with rfl | ⟨v, b, hv, hp, rfl⟩ <;> rfl
    have p2 : s2.keybindings = s1.keybindings := by
      rcases fieldStep_ok_shape h2 with rfl | ⟨v, b, hv, hp, rfl⟩ <;> rfl
    have p3 : s3.keybindings = s2.keybindings := by
      rcases fieldStep_ok_shape h3 with rfl | ⟨v, b, hv, hp, rfl⟩ <;> rfl
    have p4 : s4.keybindings = s3.keybindings := by
      rcases fieldStep_ok_shape h4 with rfl | ⟨v, b, hv, hp, rfl⟩ <;> rfl
    rw [hteq, p4, p3, p2, p1]
  rcases except_bind_error.mp h with herr | ⟨s6, h6, h⟩
  · rcases fieldStep_eq_error.mp herr with ⟨hteq, _⟩
    have p1 : s1.keybindings = s.keybindings := by
      rcases fieldStep_ok_shape h1 with rfl | ⟨v, b, hv, hp, rfl⟩ <;> rfl
    have p2 : s2.keybindings = s1.keybindings := by
      rcases fieldStep_ok_shape h2 with rfl | ⟨v, b, hv, hp, rfl⟩ <;> rfl
    have p3 : s3.keybindings = s2.keybindings := by
      rcases fieldStep_ok_shape h3 with rfl | ⟨v, b, hv, hp, rfl⟩ <;> rfl
    have p4 : s4.keybindings = s3.keybindings := by
      rcases fieldStep_ok_shape h4 with rfl | ⟨v, b, hv, hp, rfl⟩ <;> rfl
    have p5 : s5.keybindings = s4.keybindings := by
      rcases fieldStep_ok_shape h5 with rfl | ⟨v, b, hv, hp, rfl⟩ <;> rfl
    rw [hteq, p5, p4, p3, p2, p1]
  rcases except_bind_error.mp h with herr | ⟨s7, h7, h⟩
  · rcases fieldStep_eq_error.mp herr with ⟨hteq, _⟩
    have p1 : s1.keybindings = s.keybindings := by
      rcases fieldStep_ok_shape h1 with rfl | ⟨v, b, hv, hp, rfl⟩ <;> rfl
    have p2 : s2.keybindings = s1.keybindings := by
      rcases fieldStep_ok_shape h2 with rfl | ⟨v, b, hv, hp, rfl⟩ <;> rfl
    have p3 : s3.keybindings = s2.keybindings := by
      rcases fieldStep_ok_shape h3 with rfl | ⟨v, b, hv, hp, rfl⟩ <;> rfl
    have p4 : s4.keybindings = s3.keybindings := by
      rcases fieldStep_ok_shape h4 with rfl | ⟨v, b, hv, hp, rfl⟩ <;> rfl
    have p5 : s5.keybindings = s4.keybindings := by
      rcases fieldStep_ok_shape h5 with rfl | ⟨v, b, hv, hp, rfl⟩ <;> rfl
    have p6 : s6.keybindings = s5.keybindings := by
      rcases fieldStep_ok_shape h6 with rfl | ⟨v, b, hv, hp, rfl⟩ <;> rfl
    rw [hteq, p6, p5, p4, p3, p2, p1]
  rcases except_bind_error.mp h with herr | ⟨s8, h8, h⟩
  · rcases fieldStep_eq_error.mp herr with ⟨hteq, _⟩
    have p1 : s1.keybindings = s.keybindings := by
      rcases fieldStep_ok_shape h1 with rfl | ⟨v, b, hv, hp, rfl⟩ <;> rfl
    have p2 : s2.keybindings = s1.keybindings := by
      rcases fieldStep_ok_shape h2 with rfl | ⟨v, b, hv, hp, rfl⟩ <;> rfl
    have p3 : s3.keybindings = s2.keybindings := by
      rcases fieldStep_ok_shape h3 with rfl | ⟨v, b, hv, hp, rfl⟩ <;> rfl
    have p4 : s4.keybindings = s3.keybindings := by
      rcases fieldStep_ok_shape h4 with rfl | ⟨v, b, hv, hp, rfl⟩ <;> rfl
    have p5 : s5.keybindings = s4.keybindings := by
      rcases fieldStep_ok_shape h5 with rfl | ⟨v, b, hv, hp, rfl⟩ <;> rfl
    have p6 : s6.keybindings = s5.keybindings := by
      rcases fieldStep_ok_shape h6 with rfl | ⟨v, b, hv, hp, rfl⟩ <;> rfl
    have p7 : s7.keybindings = s6.keybindings := by
      rcases fieldStep_ok_shape h7 with rfl | ⟨v, b, hv, hp, rfl⟩ <;> rfl
    rw [hteq, p7, p6, p5, p4, p3, p2, p1]
  rcases except_bind_error.mp h with herr | ⟨s9, h9, h⟩
  · rcases fieldStep_eq_error.mp herr with ⟨hteq, _⟩
    have p1 : s1.keybindings = s.keybindings := by
      rcases fieldStep_ok_shape h1 with rfl | ⟨v, b, hv, hp, rfl⟩ <;> rfl
    have p2 : s2.keybindings = s1.keybindings := by
      rcases fieldStep_ok_shape h2 with rfl | ⟨v, b, hv, hp, rfl⟩ <;> rfl
    have p3 : s3.keybindings = s2.keybindings := by
      rcases fieldStep_ok_shape h3 with rfl | ⟨v, b, hv, hp, rfl⟩ <;> rfl
    have p4 : s4.keybindings = s3.keybindings := by
      rcases fieldStep_ok_shape h4 with rfl | ⟨v, b, hv, hp, rfl⟩ <;> rfl
    have p5 : s5.keybindings = s4.keybindings := by
      rcases fieldStep_ok_shape h5 with rfl | ⟨v, b, hv, hp, rfl⟩ <;> rfl
    have p6 : s6.keybindings = s5.keybindings := by
      rcases fieldStep_ok_shape h6 with rfl | ⟨v, b, hv, hp, rfl⟩ <;> rfl
    have p7 : s7.keybindings = s6.keybindings := by
      rcases fieldStep_ok_shape h7 with rfl | ⟨v, b, hv, hp, rfl⟩ <;> rfl
    have p8 : s8.keybindings = s7.keybindings := by
      rcases fieldStep_ok_shape h8 with rfl | ⟨v, b, hv, hp, rfl⟩ <;> rfl
    rw [hteq, p8, p7, p6, p5, p4, p3, p2, p1]
  rcases fieldStep_eq_error.mp h with ⟨_, v, _, hp⟩
  exact Option.noConfusion hp

/-! ### Association-list lemmas for the scheme map and key bindings -/

theorem setKey_not_mem {α : Type} (k : String) (v : α) :
    ∀ l : List (String × α), k ∉ l.map Prod.fst → setKey l k v = l ++ [(k, v)] := by
  intro l
  induction l with
  | nil => intro _; rfl
  | cons hd tl ih =>
    intro hmem
    obtain ⟨k₁, v₁⟩ := hd
    simp only [List.map_cons, List.mem_cons] at hmem
    push_neg at hmem
    simp [setKey, Ne.symm hmem.1, ih hmem.2]

theorem foldl_setKey_nodup {α : Type} :
    ∀ (l acc : List (String × α)), (acc.map Prod.fst ++ l.map Prod.fst).Nodup →
      l.foldl (fun a kv => setKey a kv.1 kv.2) acc = acc ++ l := by
  intro l
  induction l with
  | nil => intro acc _; simp
  | cons hd tl ih =>
    intro acc hnd
    obtain ⟨k, v⟩ := hd
    simp only [List.map_cons] at hnd
    rcases List.nodup_append.mp hnd with ⟨h1, h2, hdisj⟩
    have hk : k ∉ acc.map Prod.fst := fun hmem => hdisj hmem (List.mem_cons_self k _)
    have hstep : setKey acc k v = acc ++ [(k, v)] := setKey_not_mem k v acc hk
    have hnd2 : ((acc ++ [(k, v)]).map Prod.fst ++ tl.map Prod.fst).Nodup := by
      simp only [List.map_append, List.map_cons, List.map_nil, List.append_assoc,
        List.singleton_append, List.cons_append, List.nil_append]
      simpa using hnd
    calc ((k, v) :: tl).foldl (fun a kv => setKey a kv.1 kv.2) acc
        = tl.foldl (fun a kv => setKey a kv.1 kv.2) (setKey acc k v) := by
          simp [List.foldl_cons]
      _ = tl.foldl (fun a kv => setKey a kv.1 kv.2) (acc ++ [(k, v)]) := by rw [hstep]
      _ = (acc ++ [(k, v)]) ++ tl := ih _ hnd2
      _ = acc ++ (k, v) :: tl := by simp

/-- Layering a serialized key-binding set onto the empty set restores it
(keys unique). -/
theorem kb_layer_toJson (kb : AppKeyBindings)
    (h : (kb.bindings.map Prod.fst).Nodup) :
    AppKeyBindings.LayerJson ⟨[]⟩ kb.ToJson = kb := by
  simp only [AppKeyBindings.ToJson, AppKeyBindings.LayerJson]
  rw [foldl_setKey_nodup kb.bindings [] (by simpa using h)]
  simp

theorem lookupKey_setKey {α : Type} (k : String) (v : α) :
    ∀ l : List (String × α), lookupKey (setKey l k v) k = some v := by
  intro l
  induction l with
  | nil => simp [setKey, lookupKey]
  | cons hd tl ih =>
    obtain ⟨k₁, v₁⟩ := hd
    by_cases hk : k₁ = k
    · simp [setKey, hk, lookupKey]
    · simp [setKey, hk, lookupKey, ih]

theorem setKey_length_mem {α : Type} (k : String) (v : α) :
    ∀ l : List (String × α), k ∈ l.map Prod.fst →
      (setKey l k v).length = l.length := by
  intro l
  induction l with
  | nil => simp
  | cons hd tl ih =>
    intro hmem
    obtain ⟨k₁, v₁⟩ := hd
    by_cases hk : k₁ = k
    · simp [setKey, hk]
    · have hmem2 : k ∈ tl.map Prod.fst := by
        simp only [List.map_cons, List.mem_cons] at hmem
        rcases hmem with h | h
        · exact absurd h.symm hk
        · exact h
      simp [setKey, hk, ih hmem2]

theorem setKey_map_fst_mem {α : Type} (k : String) (v : α) :
    ∀ l : List (String × α), k ∈ l.map Prod.fst →
      (setKey l k v).map Prod.fst = l.map Prod.fst := by
  intro l
  induction l with
  | nil => simp
  | cons hd tl ih =>
    intro hmem
    obtain ⟨k₁, v₁⟩ := hd
    by_cases hk : k₁ = k
    · simp [setKey, hk]
    · have hmem2 : k ∈ tl.map Prod.fst := by
        simp only [List.map_cons, List.mem_cons] at hmem
        rcases hmem with h | h
        · exact absurd h.symm hk
        · exact h
      simp [setKey, hk, ih hmem2]

theorem setKey_nodup {α : Type} (k : String) (v : α) (l : List (String × α))
    (h : (l.map Prod.fst).Nodup) : ((setKey l k v).map Prod.fst).Nodup := by
  by_cases hmem : k ∈ l.map Prod.fst
  · rw [setKey_map_fst_mem k v l hmem]
    exact h
  · rw [setKey_not_mem k v l hmem]
    have hd : List.Disjoint (l.map Prod.fst) [k] := by
      intro a ha hb
      simp only [List.mem_singleton] at hb
      subst hb
      exact hmem ha
    have : (l.map Prod.fst ++ [k]).Nodup :=
      List.nodup_append.mpr ⟨h, List.nodup_singleton k, hd⟩
    simpa using this

theorem setKey_forall {α : Type} (P : String → α → Prop) (k : String) (v : α)
    (hkv : P k v) : ∀ l : List (String × α), (∀ p ∈ l, P p.1 p.2) →
      ∀ p ∈ setKey l k v, P p.1 p.2 := by
  intro l
  induction l with
  | nil =>
    intro _ p hp
    simp only [setKey, List.mem_singleton] at hp
    subst hp
    exact hkv
  | cons hd tl ih =>
    intro hall p hp
    obtain ⟨k₁, v₁⟩ := hd
    by_cases hk : k₁ = k
    · simp only [setKey, if_pos hk] at hp
      rcases List.mem_cons.mp hp with rfl | hmem
      · exact hkv
      · exact hall p (List.mem_cons_of_mem _ hmem)
    · simp only [setKey, if_neg hk] at hp
      rcases List.mem_cons.mp hp with rfl | hmem
      · exact hall (k₁, v₁) (List.mem_cons_self _ _)
      · exact ih (fun q hq => hall q (List.mem_cons_of_mem _ hq)) p hmem


/-! ### Claim theorems -/

/-- C4: theme decoding is total and never fails — `"light"` decodes to
Light, `"dark"` to Dark, every other string (including `"system"` and
garbage) to SystemDefault (`ElementTheme.Default`); and after any
`LayerJson` call, whether it returns or throws, `requestedTheme` is one of
the three enumerated values. -/
theorem parseTheme_total_spec :
    (∀ str, str = LightThemeValue →
       GlobalAppSettings._ParseTheme str = ElementTheme.Light) ∧
    (∀ str, str = DarkThemeValue →
       GlobalAppSettings._ParseTheme str = ElementTheme.Dark) ∧
    (∀ str, str ≠ LightThemeValue → str ≠ DarkThemeValue →
       GlobalAppSettings._ParseTheme str = ElementTheme.Default) ∧
    (∀ (s : GlobalAppSettings) (doc : JsonDoc),
       (layerState (s.LayerJson doc)).requestedTheme = ElementTheme.Light ∨
       (layerState (s.LayerJson doc)).requestedTheme = ElementTheme.Dark ∨
       (layerState (s.LayerJson doc)).requestedTheme = ElementTheme.Default) := by
  refine ⟨?_, ?_, ?_, ?_⟩
  · intro str h
    subst h
    rfl
  · intro str h
    subst h
    rfl
  · intro str h1 h2
    simp [GlobalAppSettings._ParseTheme, h1, h2]
  · intro s doc
    cases h : (layerState (s.LayerJson doc)).requestedTheme <;> simp

/-- Witness for C4 at the concrete garbage string `"sepia"`. -/
theorem parseTheme_total_spec_witness :
    GlobalAppSettings._ParseTheme "sepia" = ElementTheme.Default :=
  parseTheme_total_spec.2.2.1 "sepia" (by decide) (by decide)

/-- C5: theme encoding maps Light to `"light"`, Dark to `"dark"`, anything
else (SystemDefault) to `"system"`, and decode ∘ encode is the identity on
all three enumeration values. -/
theorem theme_encode_decode_roundtrip :
    GlobalAppSettings._SerializeTheme ElementTheme.Light = LightThemeValue ∧
    GlobalAppSettings._SerializeTheme ElementTheme.Dark = DarkThemeValue ∧
    GlobalAppSettings._SerializeTheme ElementTheme.Default = SystemThemeValue ∧
    ∀ x : ElementTheme,
      GlobalAppSettings._ParseTheme (GlobalAppSettings._SerializeTheme x) = x :=
  ⟨rfl, rfl, rfl, parseTheme_serializeTheme⟩

/-- C6: a freshly constructed `GlobalAppSettings` carries exactly the
defaults: zero GUID, empty key-binding set, empty scheme map, the three tab
and titlebar booleans true, SystemDefault theme, copyOnSelect false, and
the platform-default rows, columns and word delimiters; construction is a
pure total function. -/
theorem construct_defaults :
    GlobalAppSettings.construct.defaultProfile = 0 ∧
    GlobalAppSettings.construct.keybindings = ⟨[]⟩ ∧
    GlobalAppSettings.construct.colorSchemes = [] ∧
    GlobalAppSettings.construct.alwaysShowTabs = true ∧
    GlobalAppSettings.construct.showTitleInTitlebar = true ∧
    GlobalAppSettings.construct.showTabsInTitlebar = true ∧
    GlobalAppSettings.construct.requestedTheme = ElementTheme.Default ∧
    GlobalAppSettings.construct.copyOnSelect = false ∧
    GlobalAppSettings.construct.initialRows = DEFAULT_ROWS ∧
    GlobalAppSettings.construct.initialCols = DEFAULT_COLS ∧
    GlobalAppSettings.construct.wordDelimiters = DEFAULT_WORD_DELIMITERS :=
  ⟨rfl, rfl, rfl, rfl, rfl, rfl, rfl, rfl, rfl, rfl, rfl⟩

/-- C8: `ApplyToSettings` copies exactly keybindings, initialRows,
initialCols, wordDelimiters and copyOnSelect onto the target, leaves the
target's theme, tab-display and color fields unchanged, and leaves the
receiver itself unchanged. -/
theorem applyToSettings_spec (s : GlobalAppSettings) (target : TerminalSettings) :
    (s.ApplyToSettings target).1 = s ∧
    (s.ApplyToSettings target).2.keyBindings = s.keybindings ∧
    (s.ApplyToSettings target).2.initialRows = s.initialRows ∧
    (s.ApplyToSettings target).2.initialCols = s.initialCols ∧
    (s.ApplyToSettings target).2.wordDelimiters = s.wordDelimiters ∧
    (s.ApplyToSettings target).2.copyOnSelect = s.copyOnSelect ∧
    (s.ApplyToSettings target).2.requestedTheme = target.requestedTheme ∧
    (s.ApplyToSettings target).2.showTabsUI = target.showTabsUI ∧
    (s.ApplyToSettings target).2.colorTable = target.colorTable :=
  ⟨rfl, rfl, rfl, rfl, rfl, rfl, rfl, rfl, rfl⟩

/-- C3: a malformed canonical-identifier string under the `defaultProfile`
key makes `LayerJson` (and hence `FromJson`) throw — the error is
propagated to the caller, never swallowed into a default. -/
theorem layerJson_malformed_guid_fails (s : GlobalAppSettings) (doc : JsonDoc)
    (w : String) (hv : jsonLookup doc DefaultProfileKey = some (JValue.str w))
    (hw : guidFromString w = none) :
    (∃ e, s.LayerJson doc = Except.error e) ∧
    (∃ e, GlobalAppSettings.FromJson doc = Except.error e) := by
  have hstep : ∀ u : GlobalAppSettings,
      fieldStep doc DefaultProfileKey parseDefaultProfile setDefaultProfile u =
        Except.error u := by
    intro u
    simp [fieldStep, hv, parseDefaultProfile, getWstringFromJson, Option.bind, hw]
  constructor
  · refine ⟨s, ?_⟩
    simp only [GlobalAppSettings.LayerJson]
    rw [hstep s]
    rfl
  · refine ⟨GlobalAppSettings.construct, ?_⟩
    simp only [GlobalAppSettings.FromJson, GlobalAppSettings.LayerJson]
    rw [hstep GlobalAppSettings.construct]
    rfl

/-- Witness for C3: the non-GUID string `"not-a-guid"` under
`defaultProfile` makes both entry points throw. -/
theorem layerJson_malformed_guid_fails_witness :
    (∃ e, GlobalAppSettings.construct.LayerJson
        [(DefaultProfileKey, JValue.str "not-a-guid")] = Except.error e) ∧
    (∃ e, GlobalAppSettings.FromJson
        [(DefaultProfileKey, JValue.str "not-a-guid")] = Except.error e) :=
  layerJson_malformed_guid_fails GlobalAppSettings.construct
    [(DefaultProfileKey, JValue.str "not-a-guid")] "not-a-guid" rfl rfl

/-- C9: the failure on a malformed `defaultProfile` identifier is atomic —
that key is the first block executed and the GUID is parsed before the
assignment, so the thrown-state equals the input state in every field. -/
theorem layerJson_malformed_guid_atomic (s : GlobalAppSettings) (doc : JsonDoc)
    (w : String) (hv : jsonLookup doc DefaultProfileKey = some (JValue.str w))
    (hw : guidFromString w = none) :
    s.LayerJson doc = Except.error s := by
  have hstep : fieldStep doc DefaultProfileKey parseDefaultProfile setDefaultProfile s =
      Except.error s := by
    simp [fieldStep, hv, parseDefaultProfile, getWstringFromJson, Option.bind, hw]
  simp only [GlobalAppSettings.LayerJson]
  rw [hstep]
  rfl

/-- Witness for C9: a brace-less hex string is malformed; the settings
object comes back exactly as it went in. -/
theorem layerJson_malformed_guid_atomic_witness :
    GlobalAppSettings.construct.LayerJson
        [(DefaultProfileKey, JValue.str "12345678-1234-1234-1234-123456789012"),
         (InitialRowsKey, JValue.num 99)] =
      Except.error GlobalAppSettings.construct :=
  layerJson_malformed_guid_atomic GlobalAppSettings.construct
    [(DefaultProfileKey, JValue.str "12345678-1234-1234-1234-123456789012"),
     (InitialRowsKey, JValue.num 99)]
    "12345678-1234-1234-1234-123456789012" rfl rfl

/-- C7: `AddColorScheme` inserts or replaces the entry keyed by the scheme's
own name: the name now maps to the new scheme, an existing name does not
grow the map, and the keyed-by-own-name / unique-keys invariant is
preserved by every call. -/
theorem addColorScheme_spec (s : GlobalAppSettings) (scheme : ColorScheme) :
    lookupKey (s.AddColorScheme scheme).colorSchemes scheme.name = some scheme ∧
    (scheme.name ∈ s.colorSchemes.map Prod.fst →
       (s.AddColorScheme scheme).colorSchemes.length = s.colorSchemes.length) ∧
    (((s.colorSchemes.map Prod.fst).Nodup ∧
        (∀ p ∈ s.colorSchemes, p.1 = p.2.name)) →
       ((s.AddColorScheme scheme).colorSchemes.map Prod.fst).Nodup ∧
         ∀ p ∈ (s.AddColorScheme scheme).colorSchemes, p.1 = p.2.name) := by
  refine ⟨?_, ?_, ?_⟩
  · exact lookupKey_setKey scheme.name scheme s.colorSchemes
  · intro hmem
    exact setKey_length_mem scheme.name scheme s.colorSchemes hmem
  · rintro ⟨hnd, hinv⟩
    refine ⟨setKey_nodup scheme.name scheme s.colorSchemes hnd, ?_⟩
    exact setKey_forall (fun k sch => k = sch.name) scheme.name scheme rfl
      s.colorSchemes hinv

/-- Witness for C7: replacing the scheme named `"campbell"` keeps the map at
one entry, keyed by the scheme's own name. -/
theorem addColorScheme_spec_witness :
    lookupKey (GlobalAppSettings.AddColorScheme
        { GlobalAppSettings.construct with
            colorSchemes := [("campbell", ⟨"campbell", [1]⟩)] }
        ⟨"campbell", [2, 3]⟩).colorSchemes "campbell" = some ⟨"campbell", [2, 3]⟩ ∧
    (GlobalAppSettings.AddColorScheme
        { GlobalAppSettings.construct with
            colorSchemes := [("campbell", ⟨"campbell", [1]⟩)] }
        ⟨"campbell", [2, 3]⟩).colorSchemes.length = 1 ∧
    ((GlobalAppSettings.AddColorScheme
        { GlobalAppSettings.construct with
            colorSchemes := [("campbell", ⟨"campbell", [1]⟩)] }
        ⟨"campbell", [2, 3]⟩).colorSchemes.map Prod.fst).Nodup := by
  have h := addColorScheme_spec
    { GlobalAppSettings.construct with
        colorSchemes := [("campbell", ⟨"campbell", [1]⟩)] }
    ⟨"campbell", [2, 3]⟩
  refine ⟨h.1, h.2.1 (by simp), (h.2.2 ⟨by simp, ?_⟩).1⟩
  intro p hp
  simp only [List.mem_singleton] at hp
  subst hp
  rfl

/-- C2: merge semantics of `LayerJson` — on a successful call, each
recognized field key overwrites its field with the parsed value exactly
when the key is present, absent keys retain the prior value, an empty
document changes nothing, and across two successful calls the last
document containing a key determines the field (stated for the
representative `initialRows`). -/
theorem layerJson_merge_semantics (s : GlobalAppSettings) (doc : JsonDoc)
    (t : GlobalAppSettings) (h : s.LayerJson doc = Except.ok t) :
    ((jsonLookup doc DefaultProfileKey = none → t.defaultProfile = s.defaultProfile) ∧
     (∀ v, jsonLookup doc DefaultProfileKey = some v →
        ∃ b, parseDefaultProfile v = some b ∧ t.defaultProfile = b)) ∧
    ((jsonLookup doc AlwaysShowTabsKey = none → t.alwaysShowTabs = s.alwaysShowTabs) ∧
     (∀ v, jsonLookup doc AlwaysShowTabsKey = some v →
        ∃ b, asBool v = some b ∧ t.alwaysShowTabs = b)) ∧
    ((jsonLookup doc InitialRowsKey = none → t.initialRows = s.initialRows) ∧
     (∀ v, jsonLookup doc InitialRowsKey = some v →
        ∃ b, asInt v = some b ∧ t.initialRows = b)) ∧
    ((jsonLookup doc InitialColsKey = none → t.initialCols = s.initialCols) ∧
     (∀ v, jsonLookup doc InitialColsKey = some v →
        ∃ b, asInt v = some b ∧ t.initialCols = b)) ∧
    ((jsonLookup doc ShowTitleInTitlebarKey = none → t.showTitleInTitlebar = s.showTitleInTitlebar) ∧
     (∀ v, jsonLookup doc ShowTitleInTitlebarKey = some v →
        ∃ b, asBool v = some b ∧ t.showTitleInTitlebar = b)) ∧
    ((jsonLookup doc ShowTabsInTitlebarKey = none → t.showTabsInTitlebar = s.showTabsInTitlebar) ∧
     (∀ v, jsonLookup doc ShowTabsInTitlebarKey = some v →
        ∃ b, asBool v = some b ∧ t.showTabsInTitlebar = b)) ∧
    ((jsonLookup doc WordDelimitersKey = none → t.wordDelimiters = s.wordDelimiters) ∧
     (∀ v, jsonLookup doc WordDelimitersKey = some v →
        ∃ b, getWstringFromJson v = some b ∧ t.wordDelimiters = b)) ∧
    ((jsonLookup doc CopyOnSelectKey = none → t.copyOnSelect = s.copyOnSelect) ∧
     (∀ v, jsonLookup doc CopyOnSelectKey = some v →
        ∃ b, asBool v = some b ∧ t.copyOnSelect = b)) ∧
    ((jsonLookup doc RequestedThemeKey = none → t.requestedTheme = s.requestedTheme) ∧
     (∀ v, jsonLookup doc RequestedThemeKey = some v →
        ∃ b, parseRequestedTheme v = some b ∧ t.requestedTheme = b)) ∧
    ((jsonLookup doc KeybindingsKey = none → t.keybindings = s.keybindings) ∧
     (∀ v, jsonLookup doc KeybindingsKey = some v →
        t.keybindings = s.keybindings.LayerJson v)) ∧
    (s.LayerJson [] = Except.ok s) ∧
    (∀ (u t1 t2 : GlobalAppSettings) (d1 d2 : JsonDoc) (v : JValue) (n : Int),
       u.LayerJson d1 = Except.ok t1 → t1.LayerJson d2 = Except.ok t2 →
       jsonLookup d2 InitialRowsKey = some v → asInt v = some n →
       t2.initialRows = n) ∧
    (∀ (u t1 t2 : GlobalAppSettings) (d1 d2 : JsonDoc),
       u.LayerJson d1 = Except.ok t1 → t1.LayerJson d2 = Except.ok t2 →
       jsonLookup d2 InitialRowsKey = none → t2.initialRows = t1.initialRows) := by
  have m := layerJson_ok_spec s doc t h
  refine ⟨m.1, m.2.1, m.2.2.1, m.2.2.2.1, m.2.2.2.2.1, m.2.2.2.2.2.1,
    m.2.2.2.2.2.2.1, m.2.2.2.2.2.2.2.1, m.2.2.2.2.2.2.2.2.1,
    m.2.2.2.2.2.2.2.2.2.1, layerJson_nil_aux s, ?_, ?_⟩
  · intro u t1 t2 d1 d2 v n h1 h2 hv hn
    have m2 := layerJson_ok_spec t1 d2 t2 h2
    rcases m2.2.2.1.2 v hv with ⟨b, hb, ht⟩
    rw [hn] at hb
    injection hb with hb
    rw [ht, hb]
  · intro u t1 t2 d1 d2 h1 h2 hnone
    exact (layerJson_ok_spec t1 d2 t2 h2).2.2.1.1 hnone

/-- Witness for C2: layering `{"initialRows": 10}` onto a fresh object sets
initialRows to 10 and leaves alwaysShowTabs at its prior value. -/
theorem layerJson_merge_semantics_witness :
    (∃ b, asInt (JValue.num 10) = some b ∧
       ({ GlobalAppSettings.construct with initialRows := 10 } :
         GlobalAppSettings).initialRows = b) ∧
    ({ GlobalAppSettings.construct with initialRows := 10 } :
        GlobalAppSettings).alwaysShowTabs =
      GlobalAppSettings.construct.alwaysShowTabs := by
  have m := layerJson_merge_semantics GlobalAppSettings.construct
    [(InitialRowsKey, JValue.num 10)]
    { GlobalAppSettings.construct with initialRows := 10 } rfl
  exact ⟨m.2.2.1.2 (JValue.num 10) rfl, m.2.1.1 rfl⟩

/-- C10: for every document, `LayerJson` leaves the scheme map unchanged
(throwing or not); the owned key-binding set is never replaced — on success
it is exactly the old set layered with the document's keybindings value
(or the old set when the key is absent), and on a throw it is untouched. -/
theorem layerJson_frame_schemes_keybindings (s : GlobalAppSettings) (doc : JsonDoc) :
    (layerState (s.LayerJson doc)).colorSchemes = s.colorSchemes ∧
    (∀ t, s.LayerJson doc = Except.ok t →
       t.keybindings = (match jsonLookup doc KeybindingsKey with
                        | some v => s.keybindings.LayerJson v
                        | none => s.keybindings)) ∧
    (∀ t, s.LayerJson doc = Except.error t → t.keybindings = s.keybindings) := by
  refine ⟨layerState_colorSchemes doc s, ?_,
    fun t ht => layerJson_error_keybindings s doc t ht⟩
  intro t ht
  have mkb := (layerJson_ok_spec s doc t ht).2.2.2.2.2.2.2.2.2.1
  cases hk : jsonLookup doc KeybindingsKey with
  | none => exact mkb.1 hk
  | some v => exact mkb.2 v hk

/-- Witness for C10: layering a one-binding document onto a fresh object
leaves the scheme map empty and produces exactly the old (empty) set
layered with that document. -/
theorem layerJson_frame_witness :
    (layerState (GlobalAppSettings.construct.LayerJson
        [(KeybindingsKey, JValue.obj [("ctrl+c", JValue.str "copy")])])).colorSchemes
      = [] ∧
    ({ GlobalAppSettings.construct with
         keybindings := ⟨[("ctrl+c", JValue.str "copy")]⟩ } :
       GlobalAppSettings).keybindings =
      AppKeyBindings.LayerJson ⟨[]⟩ (JValue.obj [("ctrl+c", JValue.str "copy")]) := by
  have h := layerJson_frame_schemes_keybindings GlobalAppSettings.construct
    [(KeybindingsKey, JValue.obj [("ctrl+c", JValue.str "copy")])]
  refine ⟨h.1, ?_⟩
  exact h.2.1 { GlobalAppSettings.construct with
      keybindings := ⟨[("ctrl+c", JValue.str "copy")]⟩ } rfl


/-- C1: round-trip — for an instance with a valid (128-bit) identifier and
duplicate-free key-binding keys, `FromJson (ToJson s)` succeeds and agrees
with `s` on every serialized field: defaultProfile, initialRows,
initialCols, alwaysShowTabs, showTitleInTitlebar, showTabsInTitlebar,
wordDelimiters, copyOnSelect, requestedTheme and the key-binding set
(colorSchemes is not serialized and is excluded). -/
theorem fromJson_toJson_roundtrip (s : GlobalAppSettings)
    (hg : s.defaultProfile < 16 ^ 32)
    (hkb : (s.keybindings.bindings.map Prod.fst).Nodup) :
    ∃ t, GlobalAppSettings.FromJson s.ToJson = Except.ok t ∧
      t.defaultProfile = s.defaultProfile ∧
      t.initialRows = s.initialRows ∧
      t.initialCols = s.initialCols ∧
      t.alwaysShowTabs = s.alwaysShowTabs ∧
      t.showTitleInTitlebar = s.showTitleInTitlebar ∧
      t.showTabsInTitlebar = s.showTabsInTitlebar ∧
      t.wordDelimiters = s.wordDelimiters ∧
      t.copyOnSelect = s.copyOnSelect ∧
      t.requestedTheme = s.requestedTheme ∧
      t.keybindings = s.keybindings := by
  have l1 : jsonLookup s.ToJson DefaultProfileKey =
      some (JValue.str (guidToString s.defaultProfile)) := rfl
  have l2 : jsonLookup s.ToJson AlwaysShowTabsKey =
      some (JValue.bool s.alwaysShowTabs) := rfl
  have l3 : jsonLookup s.ToJson InitialRowsKey =
      some (JValue.num s.initialRows) := rfl
  have l4 : jsonLookup s.ToJson InitialColsKey =
      some (JValue.num s.initialCols) := rfl
  have l5 : jsonLookup s.ToJson ShowTitleInTitlebarKey =
      some (JValue.bool s.showTitleInTitlebar) := rfl
  have l6 : jsonLookup s.ToJson ShowTabsInTitlebarKey =
      some (JValue.bool s.showTabsInTitlebar) := rfl
  have l7 : jsonLookup s.ToJson WordDelimitersKey =
      some (JValue.str s.wordDelimiters) := rfl
  have l8 : jsonLookup s.ToJson CopyOnSelectKey =
      some (JValue.bool s.copyOnSelect) := rfl
  have l9 : jsonLookup s.ToJson RequestedThemeKey =
      some (JValue.str (GlobalAppSettings._SerializeTheme s.requestedTheme)) := rfl
  have l10 : jsonLookup s.ToJson KeybindingsKey =
      some s.keybindings.ToJson := rfl
  have hguid : parseDefaultProfile (JValue.str (guidToString s.defaultProfile)) =
      some s.defaultProfile := guidFromString_guidToString s.defaultProfile hg
  have htheme : parseRequestedTheme
      (JValue.str (GlobalAppSettings._SerializeTheme s.requestedTheme)) =
      some s.requestedTheme := by
    simp [parseRequestedTheme, getWstringFromJson, parseTheme_serializeTheme]
  have hkbl : AppKeyBindings.LayerJson ⟨[]⟩ s.keybindings.ToJson = s.keybindings :=
    kb_layer_toJson s.keybindings hkb
  refine ⟨{ s with colorSchemes := [] }, ?_,
    rfl, rfl, rfl, rfl, rfl, rfl, rfl, rfl, rfl, rfl⟩
  simp only [GlobalAppSettings.FromJson, GlobalAppSettings.LayerJson, fieldStep,
    l1, l2, l3, l4, l5, l6, l7, l8, l9, l10, hguid, htheme, asInt, asBool,
    getWstringFromJson, except_ok_bind, setDefaultProfile, setAlwaysShowTabs,
    setInitialRows, setInitialCols, setShowTitleInTitlebar, setShowTabsInTitlebar,
    setWordDelimiters, setCopyOnSelect, setRequestedTheme, layerKeybindings,
    GlobalAppSettings.construct, hkbl]

/-- Witness for C1 at the default-constructed instance (zero GUID, empty
binding set). -/
theorem fromJson_toJson_roundtrip_witness :
    GlobalAppSettings.construct.defaultProfile < 16 ^ 32 ∧
    (GlobalAppSettings.construct.keybindings.bindings.map Prod.fst).Nodup ∧
    ∃ t, GlobalAppSettings.FromJson GlobalAppSettings.construct.ToJson =
        Except.ok t ∧
      t.defaultProfile = GlobalAppSettings.construct.defaultProfile ∧
      t.initialRows = GlobalAppSettings.construct.initialRows ∧
      t.initialCols = GlobalAppSettings.construct.initialCols ∧
      t.alwaysShowTabs = GlobalAppSettings.construct.alwaysShowTabs ∧
      t.showTitleInTitlebar = GlobalAppSettings.construct.showTitleInTitlebar ∧
      t.showTabsInTitlebar = GlobalAppSettings.construct.showTabsInTitlebar ∧
      t.wordDelimiters = GlobalAppSettings.construct.wordDelimiters ∧
      t.copyOnSelect = GlobalAppSettings.construct.copyOnSelect ∧
      t.requestedTheme = GlobalAppSettings.construct.requestedTheme ∧
      t.keybindings = GlobalAppSettings.construct.keybindings :=
  ⟨by decide, by decide,
    fromJson_toJson_roundtrip GlobalAppSettings.construct (by decide) (by decide)⟩
